import Mathlib

/-!
Plugin invocation and artifact merge of the GCP orchestrators.

A shallow embedding of the three orchestrator programs of the repository

* `providers/gcp/orchestrator/main.go` (top tier, namespace `Gcp`),
* `providers/gcp/services/storage/orchestrator/main.go` (storage category tier,
  namespace `Storage`),
* `providers/gcp/services/compute/cloud-run/orchestrator/main.go` (leaf,
  namespace `CloudRun`),

together with the shared schema of `shared/orchestrator/types.go`.

Everything the programs obtain from outside (the file system, child processes,
the JSON codec, the template engine, the order in which `range` walks a Go map,
the rune table behind `strings.ToLower`, the verb `%v`) is a field of `World`; the
programs themselves are pure functions of a `World` and of the text of standard
input or the decoded request.  A run returns, besides the response it writes, its exit
status, the paths it handed to `exec.Command` and the template files it rendered.

A Go `map[string]T` is an association list whose keys are kept distinct by
`GoMap.set`; a string is its sequence of characters; a nil slice or map and an empty
one are not told apart.
-/

set_option autoImplicit false

/-! ## Values and maps -/

/-- A Go `interface{}` value as produced by decoding JSON. -/
inductive Value where
  | null
  | bool (b : Bool)
  | num (literal : String)
  | str (s : String)
  | arr (items : List Value)
  | obj (fields : List (String × Value))

/-- A Go `map[string]T`, as the list of its entries. -/
abbrev GoMap (α : Type) := List (String × α)

namespace GoMap

/-- The two-result lookup `v, ok := m[k]`. -/
def get {α : Type} : GoMap α → String → Option α
  | [], _ => none
  | (k, v) :: rest, key => if k = key then some v else get rest key

/-- The assignment `m[k] = v`. -/
def set {α : Type} : GoMap α → String → α → GoMap α
  | [], key, val => [(key, val)]
  | (k, v) :: rest, key, val =>
    if k = key then (k, val) :: rest else (k, v) :: set rest key val

/-- The keys of a map, in the order of its entry list. -/
def keys {α : Type} (m : GoMap α) : List String := m.map Prod.fst

end GoMap

/-- The type assertion `v.(string)` on a looked-up map entry. -/
def asString : Option Value → Option String
  | some (Value.str s) => some s
  | _ => none

/-- The type assertion `v.(map[string]interface{})` on a looked-up map entry. -/
def asMap : Option Value → Option (GoMap Value)
  | some (Value.obj fields) => some fields
  | _ => none

/-! ## Strings -/

/-- The function `strings.Join`. -/
def stringsJoin : List String → String → String
  | [], _ => ""
  | [a], _ => a
  | a :: b :: rest, sep => a ++ sep ++ stringsJoin (b :: rest) sep

/-- The scan of `strings.ReplaceAll` for a non-empty `old`: `skip` counts the
characters of a match that are still to be passed over. -/
def replaceScan (old new : List Char) : Nat → List Char → List Char
  | _, [] => []
  | skip + 1, _ :: cs => replaceScan old new skip cs
  | 0, c :: cs =>
    if old.isPrefixOf (c :: cs) then new ++ replaceScan old new (old.length - 1) cs
    else c :: replaceScan old new 0 cs

/-- The function `strings.ReplaceAll`: every non-overlapping occurrence of `old`,
from the left, becomes `new`; an empty `old` matches before every character and at
the end. -/
def stringsReplaceAll (s old new : String) : String :=
  match old.data with
  | [] => String.mk (new.data ++ (s.data.map fun c => c :: new.data).flatten)
  | o :: os => String.mk (replaceScan (o :: os) new.data 0 s.data)

/-- The function `strings.ToLower`, over the rune mapping `lower` that stands for
`unicode.ToLower`. -/
def stringsToLower (lower : Char → Char) (s : String) : String :=
  String.mk (s.data.map lower)

/-- The text `s` has `sub` as a contiguous part. -/
def Contains (s sub : String) : Prop := ∃ pre post : String, s = pre ++ sub ++ post

/-! ## The shared schema (`shared/orchestrator/types.go`) -/

/-- Project-level information. -/
structure Context where
  projectName : String
  environment : String
  region : String
  tags : GoMap String
  metadata : GoMap String

/-- The standard input of every orchestrator. -/
structure OrchestratorRequest where
  command : String
  capabilities : List String
  context : Context
  credentials : GoMap Value
  parameters : GoMap Value

/-- Additional information about a generation. -/
structure ResponseMetadata where
  servicesIncluded : List String
  warnings : List String
  requiredAPIs : List String
  deriving DecidableEq

/-- The standard output of every orchestrator. -/
structure OrchestratorResponse where
  success : Bool
  files : GoMap String
  metadata : ResponseMetadata
  error : String
  deriving DecidableEq

/-- The response every `generate` starts from, with the given initial metadata lists. -/
def OrchestratorResponse.start (services apis : List String) : OrchestratorResponse :=
  { success := true, files := [],
    metadata := { servicesIncluded := services, warnings := [], requiredAPIs := apis },
    error := "" }

/-! ## The outside world -/

/-- What `cmd.CombinedOutput()` hands back: the collected output and the error, if any. -/
structure ExecResult where
  output : String
  err : Option String

/-- A function registered in a `template.FuncMap`. -/
inductive Helper where
  | text (f : String → String)
  | format (f : Value → String)
  | choose (f : Value → Value → Value)

/-- Everything the orchestrators take from outside their own code. -/
structure World where
  /-- The value of `filepath.Dir(filepath.Dir(execPath))`. -/
  basePath : String
  /-- The function `filepath.Join`. -/
  joinPath : List String → String
  /-- The function `filepath.Base`. -/
  baseName : String → String
  /-- The order in which a `range` over a map with the given keys visits them. -/
  rangeOrder : List String → List String
  /-- Whether `os.Stat` of the path fails with an `os.IsNotExist` error. -/
  notExist : String → Bool
  /-- The function `os.ReadFile`. -/
  readFile : String → Except String String
  /-- Decoding of standard input into a request. -/
  decodeRequest : String → Except String OrchestratorRequest
  /-- The call `json.Marshal(req)`. -/
  marshalRequest : OrchestratorRequest → Except String String
  /-- Running the executable at a path on the given standard input. -/
  combinedOutput : String → String → ExecResult
  /-- The call `json.Unmarshal(output, &resp)`. -/
  unmarshalResponse : String → Except String OrchestratorResponse
  /-- The call `json.Unmarshal` into a `map[string]interface{}`. -/
  unmarshalObject : String → Except String (GoMap Value)
  /-- Parsing of a named template with its helpers: the error, if any. -/
  templateParse : String → GoMap Helper → String → Option String
  /-- Execution of a parsed template against its data. -/
  templateExecute : String → GoMap Helper → String → Value → Except String String
  /-- The rune mapping `unicode.ToLower`. -/
  lower : Char → Char
  /-- The verb `%v` of package `fmt`. -/
  formatValue : Value → String

/-- The state of a `generate` between its statements: the response under
construction, the three lists of parts, and the paths handed to `exec.Command` so far. -/
structure GenState where
  response : OrchestratorResponse
  mainTfParts : List String
  variablesTfParts : List String
  tfvarsParts : List String
  spawned : List String

namespace GenState

/-- The statement `response.Metadata.Warnings = append(response.Metadata.Warnings, msg)`. -/
def warn (st : GenState) (msg : String) : GenState :=
  { st with response := { st.response with
      metadata := { st.response.metadata with warnings := st.response.metadata.warnings ++ [msg] } } }

/-- The statement `response.Files[name] = text`. -/
def setFile (st : GenState) (name text : String) : GenState :=
  { st with response := { st.response with files := st.response.files.set name text } }

/-- The statements under the comments `Collect outputs` and `Merge metadata`. -/
def collect (st : GenState) (resp : OrchestratorResponse) : GenState :=
  let mainTfParts :=
    match resp.files.get "main.tf" with
    | some mainTf => st.mainTfParts ++ [mainTf]
    | none => st.mainTfParts
  let variablesTfParts :=
    match resp.files.get "variables.tf" with
    | some variablesTf => st.variablesTfParts ++ [variablesTf]
    | none => st.variablesTfParts
  let tfvarsParts :=
    match resp.files.get "terraform.tfvars" with
    | some tfvars => st.tfvarsParts ++ [tfvars]
    | none => st.tfvarsParts
  { st with
    mainTfParts := mainTfParts
    variablesTfParts := variablesTfParts
    tfvarsParts := tfvarsParts
    response := { st.response with
      metadata := { st.response.metadata with
        servicesIncluded := st.response.metadata.servicesIncluded ++ resp.metadata.servicesIncluded
        requiredAPIs := st.response.metadata.requiredAPIs ++ resp.metadata.requiredAPIs } } }

/-- The statements under the comment `Combine all parts`. -/
def combine (st : GenState) : GenState :=
  let st1 := if st.mainTfParts.length > 0 then
      st.setFile "main.tf" (stringsJoin st.mainTfParts "\n\n") else st
  let st2 := if st1.variablesTfParts.length > 0 then
      st1.setFile "variables.tf" (stringsJoin st1.variablesTfParts "\n\n") else st1
  if st2.tfvarsParts.length > 0 then
    st2.setFile "terraform.tfvars" (stringsJoin st2.tfvarsParts "\n\n") else st2

end GenState

/-- What one run of a plugin does that is visible outside: the response written to
standard output, the exit status, the executables started and the template files
handed to the renderer, both in order. -/
structure Run where
  response : OrchestratorResponse
  exitCode : Nat
  spawned : List String
  rendered : List String

/-- The function `respondError` of the three programs: a response with only
`Success` and `Error` set, and `os.Exit(1)`. -/
def respondError (message : String) (spawned rendered : List String) : Run :=
  { response := { success := false, files := [],
                  metadata := { servicesIncluded := [], warnings := [], requiredAPIs := [] },
                  error := message },
    exitCode := 1, spawned := spawned, rendered := rendered }

/-- The helper `tfstring` of the templates. -/
def tfstring (w : World) (v : Value) : String := "\"" ++ w.formatValue v ++ "\""

/-- The helper `default` of the templates. -/
def defaultHelper (defaultVal val : Value) : Value :=
  match val with
  | Value.null => defaultVal
  | Value.str s => if s = "" then defaultVal else val
  | _ => val

/-! ## The top tier (`providers/gcp/orchestrator/main.go`) -/

namespace Gcp

/-- The static table inside `mapCapabilityToCategory`. -/
def categoryMapping : GoMap String := [("storage", "storage"), ("compute", "compute")]

/-- The function `mapCapabilityToCategory`. -/
def mapCapabilityToCategory (capability : String) : String :=
  match categoryMapping.get capability with
  | some category => category
  | none => ""

/-- The loop under `Map capabilities to categories`: category -> capabilities. -/
def categoryMapOf (capabilities : List String) : GoMap (List String) :=
  capabilities.foldl
    (fun categoryMap cap =>
      let category := mapCapabilityToCategory cap
      if category ≠ "" then
        categoryMap.set category ((categoryMap.get category).getD [] ++ [cap])
      else categoryMap)
    []

/-- The function `callCategoryOrchestrator`, with the executables it started. -/
def callCategoryOrchestrator (w : World) (orchestratorPath : String)
    (req : OrchestratorRequest) : Except String OrchestratorResponse × List String :=
  match w.marshalRequest req with
  | .error err => (.error ("failed to marshal request: " ++ err), [])
  | .ok inputJSON =>
    let result := w.combinedOutput orchestratorPath inputJSON
    match result.err with
    | some err =>
      (.error ("orchestrator execution failed: " ++ err ++ ", output: " ++ result.output),
        [orchestratorPath])
    | none =>
      match w.unmarshalResponse result.output with
      | .error err =>
        (.error ("failed to parse orchestrator response: " ++ err ++ ", output: "
          ++ result.output), [orchestratorPath])
      | .ok resp => (.ok resp, [orchestratorPath])

/-- The path of a category's orchestrator executable. -/
def categoryPath (w : World) (category : String) : String :=
  w.joinPath [w.basePath, "services", category, "orchestrator", "orchestrate"]

/-- The body of the loop `for category := range categoryMap`. -/
def visit (w : World) (req : OrchestratorRequest) (st : GenState) (category : String) :
    GenState :=
  if w.notExist (categoryPath w category) then
    st.warn ("Category " ++ category ++ " orchestrator not found")
  else
    match callCategoryOrchestrator w (categoryPath w category) req with
    | (.error err, started) =>
      { st with spawned := st.spawned ++ started }.warn
        ("Failed to call " ++ category ++ " orchestrator: " ++ err)
    | (.ok categoryResp, started) =>
      if !categoryResp.success then
        { st with spawned := st.spawned ++ started }.warn
          ("Category " ++ category ++ " failed: " ++ categoryResp.error)
      else
        { st with spawned := st.spawned ++ started }.collect categoryResp

/-- The helper `sanitize` of the template function map. -/
def sanitize (w : World) (s : String) : String :=
  let s := stringsToLower w.lower s
  let s := stringsReplaceAll s " " "-"
  let s := stringsReplaceAll s "_" "-"
  s

/-- The helper `sanitizeLabel` of the template function map. -/
def sanitizeLabel (w : World) (s : String) : String :=
  let s := stringsToLower w.lower s
  let s := stringsReplaceAll s " " "-"
  let s := stringsReplaceAll s "_" "-"
  s

/-- The `template.FuncMap` of `renderTemplate`. -/
def funcMap (w : World) : GoMap Helper :=
  [("tfstring", Helper.format (tfstring w)),
   ("default", Helper.choose defaultHelper),
   ("sanitize", Helper.text (sanitize w)),
   ("sanitizeLabel", Helper.text (sanitizeLabel w))]

/-- The variable `projectID` of `renderTemplate` when the template data is built. -/
def projectID (w : World) (credentials : GoMap Value) : String :=
  let projectID :=
    match asString (credentials.get "gcp_service_account_json") with
    | some saJSON =>
      match w.unmarshalObject saJSON with
      | .ok saData =>
        match asString (saData.get "project_id") with
        | some pid => pid
        | none => ""
      | .error _ => ""
    | none => ""
  if projectID = "" then
    match asMap (credentials.get "gcp") with
    | some creds =>
      match asString (creds.get "project_id") with
      | some pid => pid
      | none => projectID
    | none => projectID
  else projectID

/-- The value `data` that `renderTemplate` executes its template against. -/
def templateData (w : World) (req : OrchestratorRequest) : GoMap Value :=
  [("ProjectName", Value.str req.context.projectName),
   ("Environment", Value.str req.context.environment),
   ("Provider", Value.str "gcp"),
   ("Variables", Value.obj [("region", Value.str req.context.region)]),
   ("Metadata", Value.obj [("project_id", Value.str (projectID w req.credentials))]),
   ("Capabilities", Value.arr [])]

/-- The function `renderTemplate`. -/
def renderTemplate (w : World) (templatePath : String) (req : OrchestratorRequest) :
    Except String String :=
  match w.readFile templatePath with
  | .error err => .error ("failed to read template: " ++ err)
  | .ok tmplContent =>
    match w.templateParse (w.baseName templatePath) (funcMap w) tmplContent with
    | some err => .error ("failed to parse template: " ++ err)
    | none =>
      match w.templateExecute (w.baseName templatePath) (funcMap w) tmplContent
          (Value.obj (templateData w req)) with
      | .error err => .error ("failed to execute template: " ++ err)
      | .ok text => .ok text

/-- The directory `terraform-config` of the provider-level templates. -/
def terraformConfigPath (w : World) : String := w.joinPath [w.basePath, "terraform-config"]

/-- The path of a provider-level template. -/
def templatePath (w : World) (name : String) : String :=
  w.joinPath [terraformConfigPath w, name]

/-- The statements under `Generate provider.tf`. -/
def renderProvider (w : World) (req : OrchestratorRequest) (st : GenState) : GenState :=
  match renderTemplate w (templatePath w "provider-block.tf.tmpl") req with
  | .error err => st.warn ("Failed to generate provider.tf: " ++ err)
  | .ok providerTf => st.setFile "provider.tf" providerTf

/-- The statements under `Generate provider-level variables.tf`. -/
def renderVariables (w : World) (req : OrchestratorRequest) (st : GenState) : GenState :=
  match renderTemplate w (templatePath w "variables.tf.tmpl") req with
  | .error err => st.warn ("Failed to generate provider variables: " ++ err)
  | .ok providerVariablesTf =>
    { st with variablesTfParts := [providerVariablesTf] ++ st.variablesTfParts }

/-- The statements under `Generate provider-level tfvars`. -/
def renderTfvars (w : World) (req : OrchestratorRequest) (st : GenState) : GenState :=
  match renderTemplate w (templatePath w "tfvars.tmpl") req with
  | .error err => st.warn ("Failed to generate provider tfvars: " ++ err)
  | .ok providerTfvars => { st with tfvarsParts := [providerTfvars] ++ st.tfvarsParts }

/-- The categories in the order the loop of `generate` visits them. -/
def children (w : World) (req : OrchestratorRequest) : List String :=
  w.rangeOrder (categoryMapOf req.capabilities).keys

/-- The state of `generate` before its loop. -/
def start : GenState :=
  { response := OrchestratorResponse.start [] [],
    mainTfParts := [], variablesTfParts := [], tfvarsParts := [], spawned := [] }

/-- The loop of `generate` over the given categories, from the given state. -/
def loop (w : World) (req : OrchestratorRequest) (st : GenState) (categories : List String) :
    GenState :=
  categories.foldl (visit w req) st

/-- The statements of `generate` after its loop, from the state the loop left. -/
def assemble (w : World) (req : OrchestratorRequest) (st : GenState) : GenState :=
  (renderTfvars w req (renderVariables w req (renderProvider w req st))).combine

/-- The state of `generate` when it writes its response. -/
def finish (w : World) (req : OrchestratorRequest) : GenState :=
  assemble w req (loop w req start (children w req))

/-- The function `generate`; it returns to `main`, so the exit status is 0. -/
def generate (w : World) (req : OrchestratorRequest) : Run :=
  { response := (finish w req).response,
    exitCode := 0,
    spawned := (finish w req).spawned,
    rendered := [templatePath w "provider-block.tf.tmpl", templatePath w "variables.tf.tmpl",
      templatePath w "tfvars.tmpl"] }

/-- The function `main`, on the text of standard input. -/
def main (w : World) (stdin : String) : Run :=
  match w.decodeRequest stdin with
  | .error err => respondError ("failed to parse input: " ++ err) [] []
  | .ok req =>
    if req.command = "generate" then generate w req
    else respondError ("unknown command: " ++ req.command) [] []

end Gcp

/-! ## The storage category tier (`providers/gcp/services/storage/orchestrator/main.go`) -/

namespace Storage

/-- The loop under `Determine which storage services to include`. -/
def servicesOf (capabilities : List String) : List String :=
  capabilities.foldl
    (fun services cap => if cap = "storage" then services ++ ["cloud-storage"] else services)
    []

/-- The function `callServiceOrchestrator`, with the executables it started. -/
def callServiceOrchestrator (w : World) (orchestratorPath : String)
    (req : OrchestratorRequest) : Except String OrchestratorResponse × List String :=
  match w.marshalRequest req with
  | .error err => (.error ("failed to marshal request: " ++ err), [])
  | .ok inputJSON =>
    let result := w.combinedOutput orchestratorPath inputJSON
    match result.err with
    | some err =>
      (.error ("orchestrator execution failed: " ++ err ++ ", output: " ++ result.output),
        [orchestratorPath])
    | none =>
      match w.unmarshalResponse result.output with
      | .error err =>
        (.error ("failed to parse orchestrator response: " ++ err ++ ", output: "
          ++ result.output), [orchestratorPath])
      | .ok resp => (.ok resp, [orchestratorPath])

/-- The path of a service's orchestrator executable. -/
def servicePath (w : World) (service : String) : String :=
  w.joinPath [w.basePath, service, "orchestrator", "orchestrate"]

/-- The body of the loop `for _, service := range services`. -/
def visit (w : World) (req : OrchestratorRequest) (st : GenState) (service : String) :
    GenState :=
  if w.notExist (servicePath w service) then
    st.warn ("Service " ++ service ++ " orchestrator not found")
  else
    match callServiceOrchestrator w (servicePath w service) req with
    | (.error err, started) =>
      { st with spawned := st.spawned ++ started }.warn
        ("Failed to call " ++ service ++ " orchestrator: " ++ err)
    | (.ok serviceResp, started) =>
      if !serviceResp.success then
        { st with spawned := st.spawned ++ started }.warn
          ("Service " ++ service ++ " failed: " ++ serviceResp.error)
      else
        { st with spawned := st.spawned ++ started }.collect serviceResp

/-- The services in the order the loop of `generate` visits them. -/
def children (req : OrchestratorRequest) : List String := servicesOf req.capabilities

/-- The state of `generate` before its loop. -/
def start : GenState :=
  { response := OrchestratorResponse.start [] [],
    mainTfParts := [], variablesTfParts := [], tfvarsParts := [], spawned := [] }

/-- The loop of `generate` over the given services, from the given state. -/
def loop (w : World) (req : OrchestratorRequest) (st : GenState) (services : List String) :
    GenState :=
  services.foldl (visit w req) st

/-- The state of `generate` when it writes its response. -/
def finish (w : World) (req : OrchestratorRequest) : GenState :=
  (loop w req start (children req)).combine

/-- The function `generate`; it returns to `main`, so the exit status is 0. -/
def generate (w : World) (req : OrchestratorRequest) : Run :=
  { response := (finish w req).response,
    exitCode := 0,
    spawned := (finish w req).spawned,
    rendered := [] }

/-- The function `main`, on the text of standard input. -/
def main (w : World) (stdin : String) : Run :=
  match w.decodeRequest stdin with
  | .error err => respondError ("failed to parse input: " ++ err) [] []
  | .ok req =>
    if req.command = "generate" then generate w req
    else respondError ("unknown command: " ++ req.command) [] []

end Storage

/-! ## The Cloud Run leaf (`providers/gcp/services/compute/cloud-run/orchestrator/main.go`) -/

namespace CloudRun

/-- The helper `sanitize` of the template function map. -/
def sanitize (w : World) (s : String) : String :=
  let s := stringsToLower w.lower s
  let s := stringsReplaceAll s " " "-"
  let s := stringsReplaceAll s "_" "-"
  s

/-- The `template.FuncMap` of `generateTfvars`. -/
def funcMap (w : World) : GoMap Helper :=
  [("tfstring", Helper.format (tfstring w)),
   ("default", Helper.choose defaultHelper),
   ("sanitize", Helper.text (sanitize w))]

/-- The map `variables` of `generateTfvars`: the default, then every parameter. -/
def variablesOf (req : OrchestratorRequest) : GoMap Value :=
  req.parameters.foldl (fun vars kv => vars.set kv.1 kv.2)
    [("region", Value.str req.context.region)]

/-- The value `data` that `generateTfvars` executes its template against. -/
def templateData (req : OrchestratorRequest) : GoMap Value :=
  [("ProjectName", Value.str req.context.projectName),
   ("Environment", Value.str req.context.environment),
   ("Variables", Value.obj (variablesOf req))]

/-- The path of the values template of the leaf. -/
def tmplPath (w : World) : String := w.joinPath [w.basePath, "terraform", "tfvars.tmpl"]

/-- The function `generateTfvars`. -/
def generateTfvars (w : World) (req : OrchestratorRequest) : Except String String :=
  match w.readFile (tmplPath w) with
  | .error err => .error ("failed to read tfvars.tmpl: " ++ err)
  | .ok tmplContent =>
    match w.templateParse "tfvars" (funcMap w) tmplContent with
    | some err => .error ("failed to parse template: " ++ err)
    | none =>
      match w.templateExecute "tfvars" (funcMap w) tmplContent
          (Value.obj (templateData req)) with
      | .error err => .error ("failed to execute template: " ++ err)
      | .ok text => .ok text

/-- The function `generate`. -/
def generate (w : World) (req : OrchestratorRequest) : Run :=
  let response := OrchestratorResponse.start ["cloud-run"] ["run.googleapis.com"]
  match w.readFile (w.joinPath [w.basePath, "terraform", "main.tf"]) with
  | .error err => respondError ("failed to read main.tf: " ++ err) [] []
  | .ok mainTf =>
    let response := { response with files := response.files.set "main.tf" mainTf }
    match w.readFile (w.joinPath [w.basePath, "terraform", "variables.tf"]) with
    | .error err => respondError ("failed to read variables.tf: " ++ err) [] []
    | .ok variablesTf =>
      let response := { response with files := response.files.set "variables.tf" variablesTf }
      match generateTfvars w req with
      | .error err => respondError ("failed to generate tfvars: " ++ err) [] [tmplPath w]
      | .ok tfvars =>
        { response := { response with files := response.files.set "terraform.tfvars" tfvars },
          exitCode := 0, spawned := [], rendered := [tmplPath w] }

/-- The function `main`, on the text of standard input. -/
def main (w : World) (stdin : String) : Run :=
  match w.decodeRequest stdin with
  | .error err => respondError ("failed to parse input: " ++ err) [] []
  | .ok req =>
    if req.command = "generate" then generate w req
    else respondError ("unknown command: " ++ req.command) [] []

end CloudRun

/-! ## How a tier reads one child

The three functions below restate what the loop body does with one child, without
the state: the response it merges, the warning it records, the executables it starts. -/

namespace Gcp

/-- The response of a category that the loop merges, if it merges one. -/
def merged (w : World) (req : OrchestratorRequest) (category : String) :
    Option OrchestratorResponse :=
  if w.notExist (categoryPath w category) then none
  else
    match (callCategoryOrchestrator w (categoryPath w category) req).1 with
    | .ok resp => if resp.success then some resp else none
    | .error _ => none

/-- The warning the loop records for a category, if it records one. -/
def warningFor (w : World) (req : OrchestratorRequest) (category : String) : Option String :=
  if w.notExist (categoryPath w category) then
    some ("Category " ++ category ++ " orchestrator not found")
  else
    match (callCategoryOrchestrator w (categoryPath w category) req).1 with
    | .ok resp =>
      if resp.success then none
      else some ("Category " ++ category ++ " failed: " ++ resp.error)
    | .error err => some ("Failed to call " ++ category ++ " orchestrator: " ++ err)

/-- The executables started for a category. -/
def started (w : World) (req : OrchestratorRequest) (category : String) : List String :=
  if w.notExist (categoryPath w category) then []
  else (callCategoryOrchestrator w (categoryPath w category) req).2

/-- The fragment a category contributes under an artifact name, if any. -/
def fragment (w : World) (req : OrchestratorRequest) (name category : String) :
    Option String :=
  (merged w req category).bind fun resp => resp.files.get name

/-- The provider-level fragment of a template, when its rendering succeeded. -/
def selfFragment (w : World) (req : OrchestratorRequest) (template : String) : List String :=
  match renderTemplate w (templatePath w template) req with
  | .ok text => [text]
  | .error _ => []

/-- The warning of a provider-level rendering, when it failed. -/
def selfWarning (w : World) (req : OrchestratorRequest) (template what : String) :
    List String :=
  match renderTemplate w (templatePath w template) req with
  | .ok _ => []
  | .error err => ["Failed to generate " ++ what ++ ": " ++ err]

/-- The warnings of the three provider-level renderings, in order. -/
def selfWarnings (w : World) (req : OrchestratorRequest) : List String :=
  selfWarning w req "provider-block.tf.tmpl" "provider.tf"
    ++ selfWarning w req "variables.tf.tmpl" "provider variables"
    ++ selfWarning w req "tfvars.tmpl" "provider tfvars"

end Gcp

namespace Storage

/-- The response of a service that the loop merges, if it merges one. -/
def merged (w : World) (req : OrchestratorRequest) (service : String) :
    Option OrchestratorResponse :=
  if w.notExist (servicePath w service) then none
  else
    match (callServiceOrchestrator w (servicePath w service) req).1 with
    | .ok resp => if resp.success then some resp else none
    | .error _ => none

/-- The warning the loop records for a service, if it records one. -/
def warningFor (w : World) (req : OrchestratorRequest) (service : String) : Option String :=
  if w.notExist (servicePath w service) then
    some ("Service " ++ service ++ " orchestrator not found")
  else
    match (callServiceOrchestrator w (servicePath w service) req).1 with
    | .ok resp =>
      if resp.success then none
      else some ("Service " ++ service ++ " failed: " ++ resp.error)
    | .error err => some ("Failed to call " ++ service ++ " orchestrator: " ++ err)

/-- The executables started for a service. -/
def started (w : World) (req : OrchestratorRequest) (service : String) : List String :=
  if w.notExist (servicePath w service) then []
  else (callServiceOrchestrator w (servicePath w service) req).2

/-- The fragment a service contributes under an artifact name, if any. -/
def fragment (w : World) (req : OrchestratorRequest) (name service : String) :
    Option String :=
  (merged w req service).bind fun resp => resp.files.get name

end Storage

/-- The loop state reached from `st` when the visited children merged the responses
`resps`, recorded the warnings `warns` and started the executables `procs`. -/
def GenState.after (st : GenState) (resps : List OrchestratorResponse)
    (warns procs : List String) : GenState :=
  { response :=
      { success := st.response.success
        files := st.response.files
        metadata :=
          { servicesIncluded := st.response.metadata.servicesIncluded
              ++ resps.flatMap fun r => r.metadata.servicesIncluded
            warnings := st.response.metadata.warnings ++ warns
            requiredAPIs := st.response.metadata.requiredAPIs
              ++ resps.flatMap fun r => r.metadata.requiredAPIs }
        error := st.response.error }
    mainTfParts := st.mainTfParts ++ resps.filterMap fun r => r.files.get "main.tf"
    variablesTfParts := st.variablesTfParts ++ resps.filterMap fun r => r.files.get "variables.tf"
    tfvarsParts := st.tfvarsParts ++ resps.filterMap fun r => r.files.get "terraform.tfvars"
    spawned := st.spawned ++ procs }

/-! ## The statements after the loop, restated -/

/-- The text under an artifact name made from a list of parts: none without parts. -/
def joined (parts : List String) : Option String :=
  if parts = [] then none else some (stringsJoin parts "\n\n")

/-- The files of the top tier once `provider.tf` has been rendered, from the files `fs`. -/
def Gcp.withProvider (w : World) (req : OrchestratorRequest) (fs : GoMap String) :
    GoMap String :=
  match Gcp.renderTemplate w (Gcp.templatePath w "provider-block.tf.tmpl") req with
  | .ok providerTf => fs.set "provider.tf" providerTf
  | .error _ => fs


/-! ## A small world for concrete runs -/

namespace Sample

/-- A world given by tables: the response each executable on disk prints (its output
text is taken to be its own path), the text of each readable file, the request each
standard input decodes to, and the object each JSON document decodes to.  Templates
have no directives, a map is walked in the order of its entry list, and lowercasing
is that of ASCII. -/
def world (programs : GoMap OrchestratorResponse) (disk : GoMap String)
    (inputs : GoMap OrchestratorRequest) (documents : GoMap (GoMap Value)) : World :=
  { basePath := "/opt/gcp"
    joinPath := fun parts => stringsJoin parts "/"
    baseName := fun path => path
    rangeOrder := fun ks => ks
    notExist := fun path => (programs.get path).isNone
    readFile := fun path =>
      match disk.get path with
      | some text => .ok text
      | none => .error ("open " ++ path ++ ": no such file or directory")
    decodeRequest := fun stdin =>
      match inputs.get stdin with
      | some req => .ok req
      | none => .error "unexpected end of JSON input"
    marshalRequest := fun _ => .ok "request"
    combinedOutput := fun path _ => { output := path, err := none }
    unmarshalResponse := fun output =>
      match programs.get output with
      | some resp => .ok resp
      | none => .error "unexpected end of JSON input"
    unmarshalObject := fun text =>
      match documents.get text with
      | some fields => .ok fields
      | none => .error "invalid character"
    templateParse := fun _ _ _ => none
    templateExecute := fun _ _ content _ => .ok content
    lower := Char.toLower
    formatValue := fun _ => "" }

/-- A request for `generate` with the given capabilities, credentials and parameters. -/
def request (capabilities : List String) (credentials parameters : GoMap Value) :
    OrchestratorRequest :=
  { command := "generate"
    capabilities := capabilities
    context := { projectName := "demo", environment := "dev", region := "us-central1",
                 tags := [], metadata := [] }
    credentials := credentials
    parameters := parameters }

/-- A successful response with the given files and one service and API of that name. -/
def reply (name : String) (files : GoMap String) : OrchestratorResponse :=
  { success := true, files := files,
    metadata := { servicesIncluded := [name], warnings := [], requiredAPIs := [name ++ ".api"] },
    error := "" }

/-- The storage category orchestrator is on disk and succeeds; the compute one is absent. -/
def storageOnly : World :=
  world [("/opt/gcp/services/storage/orchestrator/orchestrate",
          reply "cloud-storage" [("main.tf", "bucket"), ("terraform.tfvars", "A")])] [] [] []

/-- Both category orchestrators are on disk and succeed. -/
def bothCategories : World :=
  world [("/opt/gcp/services/storage/orchestrator/orchestrate",
          reply "cloud-storage" [("main.tf", "bucket"), ("terraform.tfvars", "A")]),
         ("/opt/gcp/services/compute/orchestrator/orchestrate",
          reply "cloud-run" [("main.tf", "service"), ("terraform.tfvars", "B")])] [] [] []

/-- The cloud-storage service orchestrator is on disk and succeeds. -/
def storageService : World :=
  world [("/opt/gcp/cloud-storage/orchestrator/orchestrate",
          reply "cloud-storage" [("main.tf", "bucket")])] [] [] []

/-- The cloud-storage service orchestrator succeeds with an empty `main.tf`. -/
def emptyFragment : World :=
  world [("/opt/gcp/cloud-storage/orchestrator/orchestrate",
          reply "cloud-storage" [("main.tf", "")])] [] [] []

/-- No orchestrator is on disk. -/
def noPrograms : World := world [] [] [] []

/-- The storage category orchestrator succeeds with an empty `main.tf`, the compute one
with the `main.tf` text `x`. -/
def emptyThenText : World :=
  world [("/opt/gcp/services/storage/orchestrator/orchestrate",
          reply "cloud-storage" [("main.tf", "")]),
         ("/opt/gcp/services/compute/orchestrator/orchestrate",
          reply "cloud-run" [("main.tf", "x")])] [] [] []

end Sample

/-! ## The parts behind each artifact name -/

/-- The parts the top tier joins under a name: its own fragment for `variables.tf`
and `terraform.tfvars` when rendered, then the fragments of the merged children. -/
def Gcp.parts (w : World) (req : OrchestratorRequest) (name : String) : List String :=
  (if name = "variables.tf" then Gcp.selfFragment w req "variables.tf.tmpl"
    else if name = "terraform.tfvars" then Gcp.selfFragment w req "tfvars.tmpl"
    else [])
    ++ (Gcp.children w req).filterMap (Gcp.fragment w req name)

/-- The parts the storage tier joins under a name: the fragments of the merged children. -/
def Storage.parts (w : World) (req : OrchestratorRequest) (name : String) : List String :=
  (Storage.children req).filterMap (Storage.fragment w req name)

/-! ## Reading template data -/

/-- The entry for key `k` of the map under `Variables` in the data of a template. -/
def variablesEntry (data : GoMap Value) (k : String) : Option Value :=
  (asMap (data.get "Variables")).bind fun vars => vars.get k

/-- The text under `Metadata`, `project_id` in the data of a template. -/
def metadataProjectID (data : GoMap Value) : Option String :=
  (asMap (data.get "Metadata")).bind fun fields => asString (fields.get "project_id")

/-- The project identifier found under `gcp_service_account_json`: the entry is a
string, it decodes as a JSON object, and the object holds a string `project_id`. -/
def Gcp.fromServiceAccount (w : World) (credentials : GoMap Value) : Option String :=
  (asString (credentials.get "gcp_service_account_json")).bind fun saJSON =>
    match w.unmarshalObject saJSON with
    | .ok saData => asString (saData.get "project_id")
    | .error _ => none

/-- The project identifier found under `gcp`: the entry is a map holding a string
`project_id`. -/
def Gcp.fromNested (credentials : GoMap Value) : Option String :=
  (asMap (credentials.get "gcp")).bind fun creds => asString (creds.get "project_id")

/-- A run that rejected the command `command`: `success` false, the error text
`unknown command: ` followed by the command, no file, a non-zero exit status, no
executable started and no template rendered. -/
def Rejected (run : Run) (command : String) : Prop :=
  run.response.success = false
    ∧ run.response.error = "unknown command: " ++ command
    ∧ Contains run.response.error "unknown command"
    ∧ run.response.files = []
    ∧ run.exitCode ≠ 0
    ∧ run.spawned = []
    ∧ run.rendered = []

/-- The replacement of a space or an underscore by a hyphen. -/
def hyphenate (c : Char) : Char := if c = ' ' ∨ c = '_' then '-' else c

/-- The sanitizing transform in the words of the specification: lowercase, then
replace spaces and underscores with hyphens. -/
def sanitizeSpec (lower : Char → Char) (s : String) : String :=
  String.mk ((s.data.map lower).map hyphenate)

namespace Sample

/-- A world whose standard input `validate` decodes to a request with that command and
whose standard input `empty` decodes to a request with the empty command. -/
def commands : World :=
  world [] []
    [("validate", { request [] [] [] with command := "validate" }),
     ("empty", { request [] [] [] with command := "" })] []

/-- A world in which the credential document with an empty `project_id` and the one
with the identifier `alpha` decode as JSON does. -/
def documents : World :=
  world [] [] []
    [("\x7b\"project_id\":\"\"\x7d", [("project_id", Value.str "")]),
     ("\x7b\"project_id\":\"alpha\"\x7d", [("project_id", Value.str "alpha")])]

/-- Credentials with a service-account document whose `project_id` is empty and a
nested map whose `project_id` is `p`. -/
def emptyThenNested : GoMap Value :=
  [("gcp_service_account_json", Value.str "\x7b\"project_id\":\"\"\x7d"),
   ("gcp", Value.obj [("project_id", Value.str "p")])]

/-- Credentials with a service-account document for `alpha` and a nested map for `p`. -/
def alphaThenNested : GoMap Value :=
  [("gcp_service_account_json", Value.str "\x7b\"project_id\":\"alpha\"\x7d"),
   ("gcp", Value.obj [("project_id", Value.str "p")])]

end Sample
/-! ## Lemmas on maps and strings -/

theorem GoMap.get_set_self {α : Type} (m : GoMap α) (k : String) (v : α) :
    (m.set k v).get k = some v := by
  induction m with
  | nil => simp [GoMap.set, GoMap.get]
  | cons e rest ih =>
    obtain ⟨k0, v0⟩ := e
    by_cases h : k0 = k
    · simp [GoMap.set, GoMap.get, h]
    · simp [GoMap.set, GoMap.get, h, ih]

theorem GoMap.get_set_ne {α : Type} (m : GoMap α) (k k' : String) (v : α) (h : k ≠ k') :
    (m.set k v).get k' = m.get k' := by
  induction m with
  | nil => simp [GoMap.set, GoMap.get, h]
  | cons e rest ih =>
    obtain ⟨k0, v0⟩ := e
    by_cases h0 : k0 = k
    · subst h0
      simp [GoMap.set, GoMap.get, h]
    · simp [GoMap.set, GoMap.get, h0, ih]

theorem GenState.after_nil (st : GenState) : st.after [] [] [] = st := by
  simp [GenState.after]

theorem GenState.after_after (st : GenState) (r1 r2 : List OrchestratorResponse)
    (w1 w2 p1 p2 : List String) :
    (st.after r1 w1 p1).after r2 w2 p2 = st.after (r1 ++ r2) (w1 ++ w2) (p1 ++ p2) := by
  simp [GenState.after, List.append_assoc]

/-! ## The loop in closed form -/

theorem GenState.warn_eq_after (st : GenState) (procs : List String) (msg : String) :
    GenState.warn { st with spawned := st.spawned ++ procs } msg = st.after [] [msg] procs := by
  simp [GenState.warn, GenState.after]

theorem GenState.collect_eq_after (st : GenState) (procs : List String)
    (resp : OrchestratorResponse) :
    GenState.collect { st with spawned := st.spawned ++ procs } resp
      = st.after [resp] [] procs := by
  simp only [GenState.collect, GenState.after, List.filterMap_cons, List.filterMap_nil,
    List.flatMap_cons, List.flatMap_nil, List.append_nil]
  cases resp.files.get "main.tf" <;> cases resp.files.get "variables.tf" <;>
    cases resp.files.get "terraform.tfvars" <;> simp

theorem Gcp.category_visit_eq (w : World) (req : OrchestratorRequest) (st : GenState) (c : String) :
    Gcp.visit w req st c
      = st.after (Gcp.merged w req c).toList (Gcp.warningFor w req c).toList
          (Gcp.started w req c) := by
  unfold Gcp.visit Gcp.merged Gcp.warningFor Gcp.started
  by_cases hne : w.notExist (Gcp.categoryPath w c) = true
  · have h := GenState.warn_eq_after st [] ("Category " ++ c ++ " orchestrator not found")
    simp only [List.append_nil] at h
    simp only [hne, if_true, Option.toList]
    exact h
  · simp only [hne, if_false]
    rcases hcall : Gcp.callCategoryOrchestrator w (Gcp.categoryPath w c) req with ⟨res, procs⟩
    cases res with
    | error err => simpa [Option.toList] using GenState.warn_eq_after st procs _
    | ok resp =>
      by_cases hs : resp.success = true
      · simpa [hs, Option.toList] using GenState.collect_eq_after st procs resp
      · simpa [hs, Option.toList] using GenState.warn_eq_after st procs _

theorem Gcp.category_loop_eq (w : World) (req : OrchestratorRequest) (cats : List String)
    (st : GenState) :
    Gcp.loop w req st cats
      = st.after (cats.filterMap (Gcp.merged w req)) (cats.filterMap (Gcp.warningFor w req))
          (cats.flatMap (Gcp.started w req)) := by
  induction cats generalizing st with
  | nil => simp [Gcp.loop, GenState.after_nil]
  | cons c cs ih =>
    have hstep : Gcp.loop w req st (c :: cs) = Gcp.loop w req (Gcp.visit w req st c) cs := rfl
    rw [hstep, ih, Gcp.category_visit_eq, GenState.after_after]
    congr 1
    · rcases h : Gcp.merged w req c <;> simp [Option.toList, List.filterMap_cons, h]
    · rcases h : Gcp.warningFor w req c <;> simp [Option.toList, List.filterMap_cons, h]

theorem Storage.service_visit_eq (w : World) (req : OrchestratorRequest) (st : GenState) (c : String) :
    Storage.visit w req st c
      = st.after (Storage.merged w req c).toList (Storage.warningFor w req c).toList
          (Storage.started w req c) := by
  unfold Storage.visit Storage.merged Storage.warningFor Storage.started
  by_cases hne : w.notExist (Storage.servicePath w c) = true
  · have h := GenState.warn_eq_after st [] ("Service " ++ c ++ " orchestrator not found")
    simp only [List.append_nil] at h
    simp only [hne, if_true, Option.toList]
    exact h
  · simp only [hne, if_false]
    rcases hcall : Storage.callServiceOrchestrator w (Storage.servicePath w c) req
      with ⟨res, procs⟩
    cases res with
    | error err => simpa [Option.toList] using GenState.warn_eq_after st procs _
    | ok resp =>
      by_cases hs : resp.success = true
      · simpa [hs, Option.toList] using GenState.collect_eq_after st procs resp
      · simpa [hs, Option.toList] using GenState.warn_eq_after st procs _

theorem Storage.service_loop_eq (w : World) (req : OrchestratorRequest) (svcs : List String)
    (st : GenState) :
    Storage.loop w req st svcs
      = st.after (svcs.filterMap (Storage.merged w req))
          (svcs.filterMap (Storage.warningFor w req))
          (svcs.flatMap (Storage.started w req)) := by
  induction svcs generalizing st with
  | nil => simp [Storage.loop, GenState.after_nil]
  | cons c cs ih =>
    have hstep : Storage.loop w req st (c :: cs)
        = Storage.loop w req (Storage.visit w req st c) cs := rfl
    rw [hstep, ih, Storage.service_visit_eq, GenState.after_after]
    congr 1
    · rcases h : Storage.merged w req c <;> simp [Option.toList, List.filterMap_cons, h]
    · rcases h : Storage.warningFor w req c <;> simp [Option.toList, List.filterMap_cons, h]

/-! ## The statements after the loop -/

theorem length_pos_iff_ne_nil (l : List String) : l.length > 0 ↔ l ≠ [] := by
  cases l <;> simp

theorem GenState.combine_rest (st : GenState) :
    st.combine.response.success = st.response.success
      ∧ st.combine.response.metadata = st.response.metadata
      ∧ st.combine.response.error = st.response.error
      ∧ st.combine.spawned = st.spawned := by
  unfold GenState.combine
  by_cases h1 : st.mainTfParts.length > 0 <;> by_cases h2 : st.variablesTfParts.length > 0 <;>
    by_cases h3 : st.tfvarsParts.length > 0 <;> simp [h1, h2, h3, GenState.setFile]

theorem GenState.combine_main (st : GenState) :
    st.combine.response.files.get "main.tf"
      = (joined st.mainTfParts).orElse fun _ => st.response.files.get "main.tf" := by
  unfold GenState.combine joined
  by_cases h1 : st.mainTfParts = [] <;> by_cases h2 : st.variablesTfParts = [] <;>
    by_cases h3 : st.tfvarsParts = [] <;>
    simp [h1, h2, h3, length_pos_iff_ne_nil, GenState.setFile, GoMap.get_set_self,
      GoMap.get_set_ne]

theorem GenState.combine_variables (st : GenState) :
    st.combine.response.files.get "variables.tf"
      = (joined st.variablesTfParts).orElse fun _ => st.response.files.get "variables.tf" := by
  unfold GenState.combine joined
  by_cases h1 : st.mainTfParts = [] <;> by_cases h2 : st.variablesTfParts = [] <;>
    by_cases h3 : st.tfvarsParts = [] <;>
    simp [h1, h2, h3, length_pos_iff_ne_nil, GenState.setFile, GoMap.get_set_self,
      GoMap.get_set_ne]

theorem GenState.combine_tfvars (st : GenState) :
    st.combine.response.files.get "terraform.tfvars"
      = (joined st.tfvarsParts).orElse fun _ => st.response.files.get "terraform.tfvars" := by
  unfold GenState.combine joined
  by_cases h1 : st.mainTfParts = [] <;> by_cases h2 : st.variablesTfParts = [] <;>
    by_cases h3 : st.tfvarsParts = [] <;>
    simp [h1, h2, h3, length_pos_iff_ne_nil, GenState.setFile, GoMap.get_set_self,
      GoMap.get_set_ne]

theorem GenState.combine_other (st : GenState) (k : String) (h1 : k ≠ "main.tf")
    (h2 : k ≠ "variables.tf") (h3 : k ≠ "terraform.tfvars") :
    st.combine.response.files.get k = st.response.files.get k := by
  unfold GenState.combine
  by_cases c1 : st.mainTfParts.length > 0 <;> by_cases c2 : st.variablesTfParts.length > 0 <;>
    by_cases c3 : st.tfvarsParts.length > 0 <;>
    simp [c1, c2, c3, GenState.setFile, GoMap.get_set_ne, Ne.symm h1, Ne.symm h2, Ne.symm h3]

theorem Gcp.rendered_eq (w : World) (req : OrchestratorRequest) (st : GenState) :
    Gcp.renderTfvars w req (Gcp.renderVariables w req (Gcp.renderProvider w req st))
      = { response :=
            { success := st.response.success
              files := Gcp.withProvider w req st.response.files
              metadata :=
                { servicesIncluded := st.response.metadata.servicesIncluded
                  warnings := st.response.metadata.warnings ++ Gcp.selfWarnings w req
                  requiredAPIs := st.response.metadata.requiredAPIs }
              error := st.response.error }
          mainTfParts := st.mainTfParts
          variablesTfParts := Gcp.selfFragment w req "variables.tf.tmpl" ++ st.variablesTfParts
          tfvarsParts := Gcp.selfFragment w req "tfvars.tmpl" ++ st.tfvarsParts
          spawned := st.spawned } := by
  unfold Gcp.renderTfvars Gcp.renderVariables Gcp.renderProvider Gcp.withProvider
    Gcp.selfWarnings Gcp.selfWarning Gcp.selfFragment
  rcases Gcp.renderTemplate w (Gcp.templatePath w "provider-block.tf.tmpl") req with e1 | t1 <;>
    rcases Gcp.renderTemplate w (Gcp.templatePath w "variables.tf.tmpl") req with e2 | t2 <;>
    rcases Gcp.renderTemplate w (Gcp.templatePath w "tfvars.tmpl") req with e3 | t3 <;>
    simp [GenState.warn, GenState.setFile]

theorem Gcp.withProvider_get (w : World) (req : OrchestratorRequest) (fs : GoMap String)
    (k : String) (h : k ≠ "provider.tf") : (Gcp.withProvider w req fs).get k = fs.get k := by
  unfold Gcp.withProvider
  rcases Gcp.renderTemplate w (Gcp.templatePath w "provider-block.tf.tmpl") req with e | t
  · rfl
  · exact GoMap.get_set_ne fs "provider.tf" k t (Ne.symm h)

theorem filterMap_merged_get {α : Type} (merged : α → Option OrchestratorResponse)
    (name : String) (cs : List α) :
    (cs.filterMap merged).filterMap (fun r => r.files.get name)
      = cs.filterMap (fun c => (merged c).bind fun r => r.files.get name) := by
  rw [List.filterMap_filterMap]

/-- C7. For the order in which a tier visits its children, the `services_included`
list and the `required_apis` list of the response of `generate` are the concatenation,
in that order, of the corresponding lists of exactly the children whose response was
merged (the executable exists, the call returned a response, and it has `success`),
duplicates kept and nothing added; this holds at the top tier and at the storage
tier, and with two merged responses the entries of the first come first. -/
theorem metadata_lists_are_concatenation (w : World) (req : OrchestratorRequest) :
    ((Gcp.generate w req).response.metadata.servicesIncluded
        = ((Gcp.children w req).filterMap (Gcp.merged w req)).flatMap
            fun r => r.metadata.servicesIncluded)
      ∧ ((Gcp.generate w req).response.metadata.requiredAPIs
        = ((Gcp.children w req).filterMap (Gcp.merged w req)).flatMap
            fun r => r.metadata.requiredAPIs)
      ∧ ((Storage.generate w req).response.metadata.servicesIncluded
        = ((Storage.children req).filterMap (Storage.merged w req)).flatMap
            fun r => r.metadata.servicesIncluded)
      ∧ ((Storage.generate w req).response.metadata.requiredAPIs
        = ((Storage.children req).filterMap (Storage.merged w req)).flatMap
            fun r => r.metadata.requiredAPIs)
      ∧ (∀ r1 r2 : OrchestratorResponse,
          ([r1, r2].flatMap fun r => r.metadata.servicesIncluded)
            = r1.metadata.servicesIncluded ++ r2.metadata.servicesIncluded) := by
  refine ⟨?_, ?_, ?_, ?_, ?_⟩
  · simp [Gcp.generate, Gcp.finish, Gcp.assemble, (GenState.combine_rest _).2.1,
      Gcp.rendered_eq, Gcp.category_loop_eq, GenState.after, Gcp.start, OrchestratorResponse.start]
  · simp [Gcp.generate, Gcp.finish, Gcp.assemble, (GenState.combine_rest _).2.1,
      Gcp.rendered_eq, Gcp.category_loop_eq, GenState.after, Gcp.start, OrchestratorResponse.start]
  · simp [Storage.generate, Storage.finish, (GenState.combine_rest _).2.1,
      Storage.service_loop_eq, GenState.after, Storage.start, OrchestratorResponse.start]
  · simp [Storage.generate, Storage.finish, (GenState.combine_rest _).2.1,
      Storage.service_loop_eq, GenState.after, Storage.start, OrchestratorResponse.start]
  · intro r1 r2
    simp

theorem orElse_none_right (o : Option String) : (o.orElse fun _ => none) = o := by
  cases o <;> rfl

theorem Gcp.category_finish_eq (w : World) (req : OrchestratorRequest) :
    Gcp.finish w req
      = GenState.combine
          { response :=
              { success := true
                files := Gcp.withProvider w req []
                metadata :=
                  { servicesIncluded :=
                      ((Gcp.children w req).filterMap (Gcp.merged w req)).flatMap
                        fun r => r.metadata.servicesIncluded
                    warnings := (Gcp.children w req).filterMap (Gcp.warningFor w req)
                      ++ Gcp.selfWarnings w req
                    requiredAPIs :=
                      ((Gcp.children w req).filterMap (Gcp.merged w req)).flatMap
                        fun r => r.metadata.requiredAPIs }
                error := "" }
            mainTfParts := (Gcp.children w req).filterMap (Gcp.fragment w req "main.tf")
            variablesTfParts := Gcp.selfFragment w req "variables.tf.tmpl"
              ++ (Gcp.children w req).filterMap (Gcp.fragment w req "variables.tf")
            tfvarsParts := Gcp.selfFragment w req "tfvars.tmpl"
              ++ (Gcp.children w req).filterMap (Gcp.fragment w req "terraform.tfvars")
            spawned := (Gcp.children w req).flatMap (Gcp.started w req) } := by
  simp only [Gcp.finish, Gcp.assemble, Gcp.rendered_eq, Gcp.category_loop_eq, GenState.after, Gcp.start,
    OrchestratorResponse.start, List.nil_append, filterMap_merged_get]
  rfl

theorem Storage.service_finish_eq (w : World) (req : OrchestratorRequest) :
    Storage.finish w req
      = GenState.combine
          { response :=
              { success := true
                files := []
                metadata :=
                  { servicesIncluded :=
                      ((Storage.children req).filterMap (Storage.merged w req)).flatMap
                        fun r => r.metadata.servicesIncluded
                    warnings := (Storage.children req).filterMap (Storage.warningFor w req)
                    requiredAPIs :=
                      ((Storage.children req).filterMap (Storage.merged w req)).flatMap
                        fun r => r.metadata.requiredAPIs }
                error := "" }
            mainTfParts := (Storage.children req).filterMap (Storage.fragment w req "main.tf")
            variablesTfParts :=
              (Storage.children req).filterMap (Storage.fragment w req "variables.tf")
            tfvarsParts :=
              (Storage.children req).filterMap (Storage.fragment w req "terraform.tfvars")
            spawned := (Storage.children req).flatMap (Storage.started w req) } := by
  simp only [Storage.finish, Storage.service_loop_eq, GenState.after, Storage.start,
    OrchestratorResponse.start, List.nil_append, filterMap_merged_get]
  rfl

/-- C2. For the order in which a tier visits its children and each of the names
`main.tf`, `variables.tf` and `terraform.tfvars`, the text that `generate` returns under
the name is the join with a blank line of the list made of the provider-level fragment
(top tier only, for `variables.tf` and `terraform.tfvars`, when its rendering succeeded)
followed by the fragments of the merged children in visiting order, the name being
absent when that list is empty; two fragments `a` and `b` alone give `a`, a blank
line, `b`, and a first fragment stays in front of all the others. -/
theorem artifact_text_is_join (w : World) (req : OrchestratorRequest) :
    ((Gcp.generate w req).response.files.get "main.tf"
        = joined ((Gcp.children w req).filterMap (Gcp.fragment w req "main.tf")))
      ∧ ((Gcp.generate w req).response.files.get "variables.tf"
        = joined (Gcp.selfFragment w req "variables.tf.tmpl"
            ++ (Gcp.children w req).filterMap (Gcp.fragment w req "variables.tf")))
      ∧ ((Gcp.generate w req).response.files.get "terraform.tfvars"
        = joined (Gcp.selfFragment w req "tfvars.tmpl"
            ++ (Gcp.children w req).filterMap (Gcp.fragment w req "terraform.tfvars")))
      ∧ ((Storage.generate w req).response.files.get "main.tf"
        = joined ((Storage.children req).filterMap (Storage.fragment w req "main.tf")))
      ∧ ((Storage.generate w req).response.files.get "variables.tf"
        = joined ((Storage.children req).filterMap (Storage.fragment w req "variables.tf")))
      ∧ ((Storage.generate w req).response.files.get "terraform.tfvars"
        = joined ((Storage.children req).filterMap
            (Storage.fragment w req "terraform.tfvars")))
      ∧ (∀ a b : String, joined [a, b] = some (a ++ "\n\n" ++ b))
      ∧ (∀ (self next : String) (rest : List String),
          joined (self :: next :: rest)
            = some (self ++ "\n\n" ++ stringsJoin (next :: rest) "\n\n")) := by
  refine ⟨?_, ?_, ?_, ?_, ?_, ?_, ?_, ?_⟩
  · simp only [Gcp.generate, Gcp.category_finish_eq, GenState.combine_main]
    rw [Gcp.withProvider_get w req [] "main.tf" (by decide)]
    exact orElse_none_right _
  · simp only [Gcp.generate, Gcp.category_finish_eq, GenState.combine_variables]
    rw [Gcp.withProvider_get w req [] "variables.tf" (by decide)]
    exact orElse_none_right _
  · simp only [Gcp.generate, Gcp.category_finish_eq, GenState.combine_tfvars]
    rw [Gcp.withProvider_get w req [] "terraform.tfvars" (by decide)]
    exact orElse_none_right _
  · simp only [Storage.generate, Storage.service_finish_eq, GenState.combine_main]
    exact orElse_none_right _
  · simp only [Storage.generate, Storage.service_finish_eq, GenState.combine_variables]
    exact orElse_none_right _
  · simp only [Storage.generate, Storage.service_finish_eq, GenState.combine_tfvars]
    exact orElse_none_right _
  · intro a b
    simp [joined, stringsJoin]
  · intro self next rest
    simp [joined, stringsJoin]

/-! ## Resolution of capabilities to children -/

theorem Storage.servicesOf_fold (caps : List String) (acc : List String) :
    caps.foldl
        (fun services cap => if cap = "storage" then services ++ ["cloud-storage"] else services)
        acc
      = acc ++ (caps.filter fun cap => cap = "storage").map fun _ => "cloud-storage" := by
  induction caps generalizing acc with
  | nil => simp
  | cons c cs ih =>
    by_cases h : c = "storage"
    · simp [List.foldl_cons, ih, h]
    · simp [List.foldl_cons, ih, h]

theorem Storage.servicesOf_eq (caps : List String) :
    Storage.servicesOf caps
      = (caps.filter fun cap => cap = "storage").map fun _ => "cloud-storage" := by
  simpa [Storage.servicesOf] using Storage.servicesOf_fold caps []

theorem Gcp.categoryMapOf_fold_unknown (caps : List String)
    (h : ∀ c ∈ caps, c ≠ "storage" ∧ c ≠ "compute") (acc : GoMap (List String)) :
    caps.foldl
        (fun categoryMap cap =>
          let category := Gcp.mapCapabilityToCategory cap
          if category ≠ "" then
            categoryMap.set category ((categoryMap.get category).getD [] ++ [cap])
          else categoryMap)
        acc
      = acc := by
  induction caps generalizing acc with
  | nil => rfl
  | cons c cs ih =>
    have hc := h c (List.mem_cons_self c cs)
    have hcs : ∀ x ∈ cs, x ≠ "storage" ∧ x ≠ "compute" :=
      fun x hx => h x (List.mem_cons_of_mem c hx)
    have hmap : Gcp.mapCapabilityToCategory c = "" := by
      simp [Gcp.mapCapabilityToCategory, Gcp.categoryMapping, GoMap.get, Ne.symm hc.1,
        Ne.symm hc.2]
    simp only [List.foldl_cons, hmap, ne_eq, not_true_eq_false, if_false]
    exact ih hcs acc

/-- C1. With the capabilities storage, storage the storage tier starts the
cloud-storage orchestrator twice and merges its fragment, its service and its API
twice, while the top tier on the same list starts the storage category orchestrator
once and merges its fragment once. -/
theorem storage_tier_repeats_child :
    (Storage.generate Sample.storageService
        (Sample.request ["storage", "storage"] [] [])).spawned
      = ["/opt/gcp/cloud-storage/orchestrator/orchestrate",
         "/opt/gcp/cloud-storage/orchestrator/orchestrate"]
      ∧ (Storage.generate Sample.storageService
          (Sample.request ["storage", "storage"] [] [])).response.files.get "main.tf"
        = some "bucket\n\nbucket"
      ∧ (Storage.generate Sample.storageService
          (Sample.request ["storage", "storage"] [] [])).response.metadata.servicesIncluded
        = ["cloud-storage", "cloud-storage"]
      ∧ (Storage.generate Sample.storageService
          (Sample.request ["storage", "storage"] [] [])).response.metadata.requiredAPIs
        = ["cloud-storage.api", "cloud-storage.api"]
      ∧ (Gcp.generate Sample.storageOnly
          (Sample.request ["storage", "storage"] [] [])).spawned
        = ["/opt/gcp/services/storage/orchestrator/orchestrate"]
      ∧ (Gcp.generate Sample.storageOnly
          (Sample.request ["storage", "storage"] [] [])).response.files.get "main.tf"
        = some "bucket" := by
  decide

/-! ## Failing children -/

theorem contains_middle (pre sub post : String) : Contains (pre ++ sub ++ post) sub :=
  ⟨pre, post, rfl⟩

theorem contains_second (pre sub mid post : String) :
    Contains (pre ++ sub ++ mid ++ post) sub :=
  ⟨pre, mid ++ post, by simp [String.append_assoc]⟩

theorem Gcp.category_failed_visit (w : World) (req : OrchestratorRequest) (st : GenState) (c : String)
    (h : w.notExist (Gcp.categoryPath w c) = true
      ∨ (∃ err, (Gcp.callCategoryOrchestrator w (Gcp.categoryPath w c) req).1 = .error err)
      ∨ (∃ resp, (Gcp.callCategoryOrchestrator w (Gcp.categoryPath w c) req).1 = .ok resp
          ∧ resp.success = false)) :
    ∃ msg, Contains msg c ∧ Gcp.warningFor w req c = some msg
      ∧ Gcp.merged w req c = none
      ∧ (Gcp.visit w req st c).response = (st.warn msg).response
      ∧ (Gcp.visit w req st c).mainTfParts = st.mainTfParts
      ∧ (Gcp.visit w req st c).variablesTfParts = st.variablesTfParts
      ∧ (Gcp.visit w req st c).tfvarsParts = st.tfvarsParts := by
  by_cases hne : w.notExist (Gcp.categoryPath w c) = true
  · refine ⟨"Category " ++ c ++ " orchestrator not found", contains_middle _ _ _, ?_, ?_, ?_⟩
    · simp [Gcp.warningFor, hne]
    · simp [Gcp.merged, hne]
    · simp [Gcp.visit, hne, GenState.warn]
  · rcases h with h | ⟨err, herr⟩ | ⟨resp, hresp, hs⟩
    · exact absurd h hne
    · refine ⟨"Failed to call " ++ c ++ " orchestrator: " ++ err, contains_second _ _ _ _,
        ?_, ?_, ?_⟩
      · simp [Gcp.warningFor, hne, herr]
      · simp [Gcp.merged, hne, herr]
      · rcases hcall : Gcp.callCategoryOrchestrator w (Gcp.categoryPath w c) req
          with ⟨res, procs⟩
        rw [hcall] at herr
        simp only at herr
        subst herr
        simp [Gcp.visit, hne, hcall, GenState.warn]
    · refine ⟨"Category " ++ c ++ " failed: " ++ resp.error, contains_second _ _ _ _, ?_, ?_, ?_⟩
      · simp [Gcp.warningFor, hne, hresp, hs]
      · simp [Gcp.merged, hne, hresp, hs]
      · rcases hcall : Gcp.callCategoryOrchestrator w (Gcp.categoryPath w c) req
          with ⟨res, procs⟩
        rw [hcall] at hresp
        simp only at hresp
        subst hresp
        simp [Gcp.visit, hne, hcall, hs, GenState.warn]

theorem Storage.service_failed_visit (w : World) (req : OrchestratorRequest) (st : GenState)
    (c : String)
    (h : w.notExist (Storage.servicePath w c) = true
      ∨ (∃ err, (Storage.callServiceOrchestrator w (Storage.servicePath w c) req).1
          = .error err)
      ∨ (∃ resp, (Storage.callServiceOrchestrator w (Storage.servicePath w c) req).1 = .ok resp
          ∧ resp.success = false)) :
    ∃ msg, Contains msg c ∧ Storage.warningFor w req c = some msg
      ∧ Storage.merged w req c = none
      ∧ (Storage.visit w req st c).response = (st.warn msg).response
      ∧ (Storage.visit w req st c).mainTfParts = st.mainTfParts
      ∧ (Storage.visit w req st c).variablesTfParts = st.variablesTfParts
      ∧ (Storage.visit w req st c).tfvarsParts = st.tfvarsParts := by
  by_cases hne : w.notExist (Storage.servicePath w c) = true
  · refine ⟨"Service " ++ c ++ " orchestrator not found", contains_middle _ _ _, ?_, ?_, ?_⟩
    · simp [Storage.warningFor, hne]
    · simp [Storage.merged, hne]
    · simp [Storage.visit, hne, GenState.warn]
  · rcases h with h | ⟨err, herr⟩ | ⟨resp, hresp, hs⟩
    · exact absurd h hne
    · refine ⟨"Failed to call " ++ c ++ " orchestrator: " ++ err, contains_second _ _ _ _,
        ?_, ?_, ?_⟩
      · simp [Storage.warningFor, hne, herr]
      · simp [Storage.merged, hne, herr]
      · rcases hcall : Storage.callServiceOrchestrator w (Storage.servicePath w c) req
          with ⟨res, procs⟩
        rw [hcall] at herr
        simp only at herr
        subst herr
        simp [Storage.visit, hne, hcall, GenState.warn]
    · refine ⟨"Service " ++ c ++ " failed: " ++ resp.error, contains_second _ _ _ _, ?_, ?_, ?_⟩
      · simp [Storage.warningFor, hne, hresp, hs]
      · simp [Storage.merged, hne, hresp, hs]
      · rcases hcall : Storage.callServiceOrchestrator w (Storage.servicePath w c) req
          with ⟨res, procs⟩
        rw [hcall] at hresp
        simp only at hresp
        subst hresp
        simp [Storage.visit, hne, hcall, hs, GenState.warn]

theorem Gcp.category_warning_iff_not_merged (w : World) (req : OrchestratorRequest) (c : String) :
    (Gcp.warningFor w req c).isSome = (Gcp.merged w req c).isNone := by
  unfold Gcp.warningFor Gcp.merged
  by_cases hne : w.notExist (Gcp.categoryPath w c) = true
  · simp [hne]
  · rcases (Gcp.callCategoryOrchestrator w (Gcp.categoryPath w c) req).1 with err | resp
    · simp [hne]
    · by_cases hs : resp.success = true <;> simp [hne, hs]

theorem Storage.service_warning_iff_not_merged (w : World) (req : OrchestratorRequest) (c : String) :
    (Storage.warningFor w req c).isSome = (Storage.merged w req c).isNone := by
  unfold Storage.warningFor Storage.merged
  by_cases hne : w.notExist (Storage.servicePath w c) = true
  · simp [hne]
  · rcases (Storage.callServiceOrchestrator w (Storage.servicePath w c) req).1 with err | resp
    · simp [hne]
    · by_cases hs : resp.success = true <;> simp [hne, hs]

/-- At the top tier and at the storage tier the response of `generate` has
`success` true whatever the children do.  A visit of a child whose executable is
missing, whose call returns an error (the process or the parsing of its output
failed) or whose response has `success` false appends exactly one warning, which
contains the child's name, and changes nothing else of the response nor any list of
parts; that child has no merged response, so it adds nothing to `main.tf`,
`variables.tf`, `terraform.tfvars`, `services_included` or `required_apis`.  The
warnings of the response are, in visiting order, the warnings of the visited children
that have no merged response, followed at the top tier by those of its own
renderings. -/
theorem failed_visit_appends_one_warning (w : World) (req : OrchestratorRequest) :
    (Gcp.generate w req).response.success = true
      ∧ (Storage.generate w req).response.success = true
      ∧ (∀ (st : GenState) (c : String),
          (w.notExist (Gcp.categoryPath w c) = true
            ∨ (∃ err, (Gcp.callCategoryOrchestrator w (Gcp.categoryPath w c) req).1
                = .error err)
            ∨ (∃ resp, (Gcp.callCategoryOrchestrator w (Gcp.categoryPath w c) req).1
                = .ok resp ∧ resp.success = false)) →
          ∃ msg, Contains msg c ∧ Gcp.warningFor w req c = some msg
            ∧ Gcp.merged w req c = none
            ∧ (Gcp.visit w req st c).response = (st.warn msg).response
            ∧ (Gcp.visit w req st c).mainTfParts = st.mainTfParts
            ∧ (Gcp.visit w req st c).variablesTfParts = st.variablesTfParts
            ∧ (Gcp.visit w req st c).tfvarsParts = st.tfvarsParts)
      ∧ (∀ (st : GenState) (c : String),
          (w.notExist (Storage.servicePath w c) = true
            ∨ (∃ err, (Storage.callServiceOrchestrator w (Storage.servicePath w c) req).1
                = .error err)
            ∨ (∃ resp, (Storage.callServiceOrchestrator w (Storage.servicePath w c) req).1
                = .ok resp ∧ resp.success = false)) →
          ∃ msg, Contains msg c ∧ Storage.warningFor w req c = some msg
            ∧ Storage.merged w req c = none
            ∧ (Storage.visit w req st c).response = (st.warn msg).response
            ∧ (Storage.visit w req st c).mainTfParts = st.mainTfParts
            ∧ (Storage.visit w req st c).variablesTfParts = st.variablesTfParts
            ∧ (Storage.visit w req st c).tfvarsParts = st.tfvarsParts)
      ∧ ((Gcp.generate w req).response.metadata.warnings
          = (Gcp.children w req).filterMap (Gcp.warningFor w req) ++ Gcp.selfWarnings w req)
      ∧ ((Storage.generate w req).response.metadata.warnings
          = (Storage.children req).filterMap (Storage.warningFor w req))
      ∧ (∀ c, (Gcp.warningFor w req c).isSome = (Gcp.merged w req c).isNone)
      ∧ (∀ c, (Storage.warningFor w req c).isSome = (Storage.merged w req c).isNone) := by
  refine ⟨?_, ?_, ?_, ?_, ?_, ?_, ?_, ?_⟩
  · simp [Gcp.generate, Gcp.category_finish_eq, (GenState.combine_rest _).1]
  · simp [Storage.generate, Storage.service_finish_eq, (GenState.combine_rest _).1]
  · exact fun st c h => Gcp.category_failed_visit w req st c h
  · exact fun st c h => Storage.service_failed_visit w req st c h
  · simp [Gcp.generate, Gcp.category_finish_eq, (GenState.combine_rest _).2.1]
  · simp [Storage.generate, Storage.service_finish_eq, (GenState.combine_rest _).2.1]
  · exact Gcp.category_warning_iff_not_merged w req
  · exact Storage.service_warning_iff_not_merged w req

/-- A concrete visit: the compute orchestrator is absent, and visiting it from the
initial state appends one warning that names it. -/
theorem failed_visit_sample :
    Sample.storageOnly.notExist (Gcp.categoryPath Sample.storageOnly "compute") = true
      ∧ ∃ msg, Contains msg "compute"
          ∧ Gcp.warningFor Sample.storageOnly
              (Sample.request ["storage", "compute"] [] []) "compute" = some msg
          ∧ Gcp.merged Sample.storageOnly
              (Sample.request ["storage", "compute"] [] []) "compute" = none
          ∧ (Gcp.visit Sample.storageOnly (Sample.request ["storage", "compute"] [] [])
              Gcp.start "compute").response = (Gcp.start.warn msg).response
          ∧ (Gcp.visit Sample.storageOnly (Sample.request ["storage", "compute"] [] [])
              Gcp.start "compute").mainTfParts = Gcp.start.mainTfParts
          ∧ (Gcp.visit Sample.storageOnly (Sample.request ["storage", "compute"] [] [])
              Gcp.start "compute").variablesTfParts = Gcp.start.variablesTfParts
          ∧ (Gcp.visit Sample.storageOnly (Sample.request ["storage", "compute"] [] [])
              Gcp.start "compute").tfvarsParts = Gcp.start.tfvarsParts :=
  ⟨by decide,
    (failed_visit_appends_one_warning Sample.storageOnly
      (Sample.request ["storage", "compute"] [] [])).2.2.1 Gcp.start "compute"
      (Or.inl (by decide))⟩

/-- C3. With the capabilities storage, storage and no cloud-storage orchestrator on
disk, the response of the storage tier carries two warnings for the one child
`cloud-storage`, both naming it, where one is due; it still has `success` true and
no file, service or API.  The top tier on the same list, with no storage
orchestrator on disk, warns once about the category before the warnings of its own
renderings. -/
theorem storage_tier_repeats_warning :
    Storage.children (Sample.request ["storage", "storage"] [] [])
        = ["cloud-storage", "cloud-storage"]
      ∧ (Storage.generate Sample.noPrograms
          (Sample.request ["storage", "storage"] [] [])).response.metadata.warnings
        = ["Service cloud-storage orchestrator not found",
           "Service cloud-storage orchestrator not found"]
      ∧ (Storage.generate Sample.noPrograms
          (Sample.request ["storage", "storage"] [] [])).response.success = true
      ∧ (Storage.generate Sample.noPrograms
          (Sample.request ["storage", "storage"] [] [])).response.files = []
      ∧ (Storage.generate Sample.noPrograms
          (Sample.request ["storage", "storage"] [] [])).response.metadata.servicesIncluded = []
      ∧ (Storage.generate Sample.noPrograms
          (Sample.request ["storage", "storage"] [] [])).response.metadata.requiredAPIs = []
      ∧ (Storage.generate Sample.noPrograms
          (Sample.request ["storage", "storage"] [] [])).spawned = []
      ∧ Gcp.children Sample.noPrograms (Sample.request ["storage", "storage"] [] [])
        = ["storage"]
      ∧ ((Gcp.generate Sample.noPrograms
          (Sample.request ["storage", "storage"] [] [])).response.metadata.warnings).take 2
        = ["Category storage orchestrator not found",
           "Failed to generate provider.tf: failed to read template: open "
             ++ "/opt/gcp/terraform-config/provider-block.tf.tmpl: no such file or directory"]
      ∧ ((Gcp.generate Sample.noPrograms
          (Sample.request ["storage", "storage"] [] [])).response.metadata.warnings).length
        = 4 := by
  decide

/-! ## Capabilities outside the static table -/

theorem Gcp.category_children_unknown (w : World) (req : OrchestratorRequest)
    (hrange : ∀ ks, (w.rangeOrder ks).Perm ks)
    (h : ∀ c ∈ req.capabilities, c ≠ "storage" ∧ c ≠ "compute") : Gcp.children w req = [] := by
  have hmap : Gcp.categoryMapOf req.capabilities = [] :=
    Gcp.categoryMapOf_fold_unknown req.capabilities h []
  have hperm := hrange (Gcp.categoryMapOf req.capabilities).keys
  rw [hmap] at hperm
  simpa [Gcp.children, hmap, GoMap.keys] using hperm

theorem Storage.service_children_unknown (req : OrchestratorRequest)
    (h : ∀ c ∈ req.capabilities, c ≠ "storage") : Storage.children req = [] := by
  rw [Storage.children, Storage.servicesOf_eq]
  have : (req.capabilities.filter fun cap => cap = "storage") = [] := by
    rw [List.filter_eq_nil_iff]
    intro c hc
    simpa using h c hc
  simp [this]

theorem joined_selfFragment (w : World) (req : OrchestratorRequest) (template : String) :
    joined (Gcp.selfFragment w req template)
      = (Gcp.renderTemplate w (Gcp.templatePath w template) req).toOption := by
  unfold Gcp.selfFragment
  rcases Gcp.renderTemplate w (Gcp.templatePath w template) req with e | t
  · rfl
  · simp [joined, stringsJoin, Except.toOption]

theorem Gcp.withProvider_get_provider (w : World) (req : OrchestratorRequest) :
    (Gcp.withProvider w req []).get "provider.tf"
      = (Gcp.renderTemplate w (Gcp.templatePath w "provider-block.tf.tmpl") req).toOption := by
  unfold Gcp.withProvider
  rcases Gcp.renderTemplate w (Gcp.templatePath w "provider-block.tf.tmpl") req with e | t
  · rfl
  · simp [GoMap.set, GoMap.get, Except.toOption]

/-- C4. The function `mapCapabilityToCategory` returns the empty string for every
identifier other than `storage` and `compute`.  When no capability of the request is
in the table of the tier (a map with no key being walked in no step), the tier visits
no child and starts no executable and its response has `success` true and empty
`services_included` and `required_apis`; at the top tier the warnings are only those
of its own three renderings and the files are only the three it rendered itself, each
present when its rendering succeeded, with no `main.tf`; at the storage tier the
response is the initial one, with no file and no warning. -/
theorem unknown_capabilities_resolve_nothing (w : World) (req : OrchestratorRequest)
    (hrange : ∀ ks, (w.rangeOrder ks).Perm ks) :
    (∀ c : String, c ≠ "storage" → c ≠ "compute" → Gcp.mapCapabilityToCategory c = "")
      ∧ ((∀ c ∈ req.capabilities, c ≠ "storage" ∧ c ≠ "compute") →
          Gcp.children w req = []
            ∧ (Gcp.generate w req).spawned = []
            ∧ (Gcp.generate w req).response.success = true
            ∧ (Gcp.generate w req).response.metadata.warnings = Gcp.selfWarnings w req
            ∧ (Gcp.generate w req).response.metadata.servicesIncluded = []
            ∧ (Gcp.generate w req).response.metadata.requiredAPIs = []
            ∧ (Gcp.generate w req).response.files.get "main.tf" = none
            ∧ (Gcp.generate w req).response.files.get "provider.tf"
                = (Gcp.renderTemplate w (Gcp.templatePath w "provider-block.tf.tmpl")
                    req).toOption
            ∧ (Gcp.generate w req).response.files.get "variables.tf"
                = (Gcp.renderTemplate w (Gcp.templatePath w "variables.tf.tmpl") req).toOption
            ∧ (Gcp.generate w req).response.files.get "terraform.tfvars"
                = (Gcp.renderTemplate w (Gcp.templatePath w "tfvars.tmpl") req).toOption
            ∧ (∀ k : String, k ≠ "provider.tf" → k ≠ "variables.tf" →
                k ≠ "terraform.tfvars" → (Gcp.generate w req).response.files.get k = none))
      ∧ ((∀ c ∈ req.capabilities, c ≠ "storage") →
          Storage.children req = []
            ∧ Storage.generate w req
                = { response := OrchestratorResponse.start [] [], exitCode := 0,
                    spawned := [], rendered := [] }) := by
  refine ⟨?_, ?_, ?_⟩
  · intro c h1 h2
    simp [Gcp.mapCapabilityToCategory, Gcp.categoryMapping, GoMap.get, Ne.symm h1, Ne.symm h2]
  · intro h
    have hch := Gcp.category_children_unknown w req hrange h
    refine ⟨hch, ?_, ?_, ?_, ?_, ?_, ?_, ?_, ?_, ?_, ?_⟩
    · simp [Gcp.generate, Gcp.category_finish_eq, (GenState.combine_rest _).2.2.2, hch]
    · simp [Gcp.generate, Gcp.category_finish_eq, (GenState.combine_rest _).1]
    · simp [Gcp.generate, Gcp.category_finish_eq, (GenState.combine_rest _).2.1, hch]
    · simp [Gcp.generate, Gcp.category_finish_eq, (GenState.combine_rest _).2.1, hch]
    · simp [Gcp.generate, Gcp.category_finish_eq, (GenState.combine_rest _).2.1, hch]
    · simp only [Gcp.generate, Gcp.category_finish_eq, GenState.combine_main, hch]
      rw [Gcp.withProvider_get w req [] "main.tf" (by decide)]
      rfl
    · simp only [Gcp.generate, Gcp.category_finish_eq]
      rw [GenState.combine_other _ "provider.tf" (by decide) (by decide) (by decide)]
      exact Gcp.withProvider_get_provider w req
    · simp only [Gcp.generate, Gcp.category_finish_eq, GenState.combine_variables, hch,
        List.filterMap_nil, List.append_nil]
      rw [Gcp.withProvider_get w req [] "variables.tf" (by decide), joined_selfFragment]
      exact orElse_none_right _
    · simp only [Gcp.generate, Gcp.category_finish_eq, GenState.combine_tfvars, hch,
        List.filterMap_nil, List.append_nil]
      rw [Gcp.withProvider_get w req [] "terraform.tfvars" (by decide), joined_selfFragment]
      exact orElse_none_right _
    · intro k h1 h2 h3
      have hmain : (Gcp.withProvider w req []).get "main.tf" = none := by
        rw [Gcp.withProvider_get w req [] "main.tf" (by decide)]
        rfl
      by_cases hk : k = "main.tf"
      · subst hk
        simp only [Gcp.generate, Gcp.category_finish_eq, GenState.combine_main, hch, hmain]
        rfl
      · simp only [Gcp.generate, Gcp.category_finish_eq]
        rw [GenState.combine_other _ k hk h2 h3, Gcp.withProvider_get w req [] k h1]
        rfl
  · intro h
    have hch := Storage.service_children_unknown req h
    refine ⟨hch, ?_⟩
    simp only [Storage.generate, Storage.finish, hch, Storage.loop, List.foldl_nil]
    rfl

/-- C4, at a concrete run: the capability quantum is in no table, and the top tier
then visits no child, starts nothing and warns only about its own renderings. -/
theorem unknown_capabilities_resolve_nothing_witness :
    (∀ ks, ((Sample.storageOnly).rangeOrder ks).Perm ks)
      ∧ (∀ c ∈ (Sample.request ["quantum"] [] []).capabilities, c ≠ "storage" ∧ c ≠ "compute")
      ∧ Gcp.children Sample.storageOnly (Sample.request ["quantum"] [] []) = []
      ∧ (Gcp.generate Sample.storageOnly (Sample.request ["quantum"] [] [])).spawned = []
      ∧ (Gcp.generate Sample.storageOnly (Sample.request ["quantum"] [] [])).response.success
          = true
      ∧ (Gcp.generate Sample.storageOnly
            (Sample.request ["quantum"] [] [])).response.metadata.warnings
          = Gcp.selfWarnings Sample.storageOnly (Sample.request ["quantum"] [] []) :=
  have hr : ∀ ks, ((Sample.storageOnly).rangeOrder ks).Perm ks := fun ks => List.Perm.refl ks
  have hc : ∀ c ∈ (Sample.request ["quantum"] [] []).capabilities,
      c ≠ "storage" ∧ c ≠ "compute" := by
    intro c hc
    have : c = "quantum" := by simpa [Sample.request] using hc
    subst this
    decide
  have h := (unknown_capabilities_resolve_nothing Sample.storageOnly
    (Sample.request ["quantum"] [] []) hr).2.1 hc
  ⟨hr, hc, h.1, h.2.1, h.2.2.1, h.2.2.2.1⟩

/-! ## Presence and emptiness of artifact keys -/

theorem joined_eq_none_iff (parts : List String) : joined parts = none ↔ parts = [] := by
  unfold joined
  by_cases h : parts = [] <;> simp [h]

theorem stringsJoin_eq_empty_iff (parts : List String) :
    stringsJoin parts "\n\n" = "" ↔ parts = [] ∨ parts = [""] := by
  match parts with
  | [] => simp [stringsJoin]
  | [a] => simp [stringsJoin]
  | a :: b :: rest =>
    simp only [stringsJoin, List.cons_ne_nil, false_or]
    constructor
    · intro h
      have hlen := congrArg String.length h
      simp only [String.length_append] at hlen
      have h2 : "\n\n".length = 2 := by decide
      have h0 : "".length = 0 := by decide
      omega
    · intro h
      simp at h

theorem joined_eq_some_empty_iff (parts : List String) :
    joined parts = some "" ↔ parts = [""] := by
  unfold joined
  by_cases h : parts = []
  · simp [h]
  · simp only [h, if_false, Option.some.injEq, stringsJoin_eq_empty_iff, false_or]

theorem Gcp.category_files_get_parts (w : World) (req : OrchestratorRequest) (name : String)
    (h : name ∈ ["main.tf", "variables.tf", "terraform.tfvars"]) :
    (Gcp.generate w req).response.files.get name = joined (Gcp.parts w req name) := by
  simp only [List.mem_cons, List.mem_singleton, List.not_mem_nil, or_false] at h
  rcases h with h | h | h <;> subst h
  · simp only [Gcp.generate, Gcp.category_finish_eq, GenState.combine_main]
    rw [Gcp.withProvider_get w req [] "main.tf" (by decide)]
    exact orElse_none_right _
  · simp only [Gcp.generate, Gcp.category_finish_eq, GenState.combine_variables]
    rw [Gcp.withProvider_get w req [] "variables.tf" (by decide)]
    exact orElse_none_right _
  · simp only [Gcp.generate, Gcp.category_finish_eq, GenState.combine_tfvars]
    rw [Gcp.withProvider_get w req [] "terraform.tfvars" (by decide)]
    exact orElse_none_right _

theorem Storage.service_files_get_parts (w : World) (req : OrchestratorRequest) (name : String)
    (h : name ∈ ["main.tf", "variables.tf", "terraform.tfvars"]) :
    (Storage.generate w req).response.files.get name = joined (Storage.parts w req name) := by
  simp only [List.mem_cons, List.mem_singleton, List.not_mem_nil, or_false] at h
  rcases h with h | h | h <;> subst h
  · simp only [Storage.generate, Storage.service_finish_eq, GenState.combine_main]
    exact orElse_none_right _
  · simp only [Storage.generate, Storage.service_finish_eq, GenState.combine_variables]
    exact orElse_none_right _
  · simp only [Storage.generate, Storage.service_finish_eq, GenState.combine_tfvars]
    exact orElse_none_right _

/-- C5, as stated, fails: the cloud-storage orchestrator answers with `main.tf` mapped
to empty text, the storage tier collects that fragment, and its response carries the
key `main.tf` with empty text. -/
theorem empty_fragment_keeps_key :
    Storage.fragment Sample.emptyFragment (Sample.request ["storage"] [] []) "main.tf"
        "cloud-storage" = some ""
      ∧ (Storage.generate Sample.emptyFragment
          (Sample.request ["storage"] [] [])).response.files.get "main.tf" = some "" := by
  decide

theorem Gcp.category_parts_eq (w : World) (req : OrchestratorRequest) (name : String) :
    Gcp.parts w req name
      = (if name = "variables.tf" then Gcp.selfFragment w req "variables.tf.tmpl"
          else if name = "terraform.tfvars" then Gcp.selfFragment w req "tfvars.tmpl"
          else [])
        ++ ((Gcp.children w req).filterMap (Gcp.merged w req)).filterMap
            fun r => r.files.get name := by
  rw [filterMap_merged_get]
  rfl

theorem Storage.service_parts_eq (w : World) (req : OrchestratorRequest) (name : String) :
    Storage.parts w req name
      = ((Storage.children req).filterMap (Storage.merged w req)).filterMap
          fun r => r.files.get name := by
  rw [filterMap_merged_get]
  rfl

/-- C5, amended.  At the top tier and at the storage tier, for each of the names
`main.tf`, `variables.tf` and `terraform.tfvars`, the text under the name in the files
of the response of `generate` is the join with a blank line of the collected parts:
the provider-level fragment (top tier only, for `variables.tf` and
`terraform.tfvars`, when its rendering succeeded), then, in visiting order, the text
that each merged response carries under the name, taken whenever the key is there,
empty or not.  The name is absent exactly when no part was collected, and it maps to
empty text exactly when the one part collected is empty; an empty part next to
another one stays in the join. -/
theorem present_key_joins_collected_parts (w : World) (req : OrchestratorRequest) :
    (∀ name ∈ ["main.tf", "variables.tf", "terraform.tfvars"],
        ((Gcp.generate w req).response.files.get name
            = joined
                ((if name = "variables.tf" then Gcp.selfFragment w req "variables.tf.tmpl"
                  else if name = "terraform.tfvars" then Gcp.selfFragment w req "tfvars.tmpl"
                  else [])
                ++ ((Gcp.children w req).filterMap (Gcp.merged w req)).filterMap
                    fun r => r.files.get name))
          ∧ ((Gcp.generate w req).response.files.get name = none
            ↔ (if name = "variables.tf" then Gcp.selfFragment w req "variables.tf.tmpl"
                else if name = "terraform.tfvars" then Gcp.selfFragment w req "tfvars.tmpl"
                else [])
              ++ ((Gcp.children w req).filterMap (Gcp.merged w req)).filterMap
                  (fun r => r.files.get name) = [])
          ∧ ((Gcp.generate w req).response.files.get name = some ""
            ↔ (if name = "variables.tf" then Gcp.selfFragment w req "variables.tf.tmpl"
                else if name = "terraform.tfvars" then Gcp.selfFragment w req "tfvars.tmpl"
                else [])
              ++ ((Gcp.children w req).filterMap (Gcp.merged w req)).filterMap
                  (fun r => r.files.get name) = [""]))
      ∧ (∀ name ∈ ["main.tf", "variables.tf", "terraform.tfvars"],
        ((Storage.generate w req).response.files.get name
            = joined (((Storage.children req).filterMap (Storage.merged w req)).filterMap
                fun r => r.files.get name))
          ∧ ((Storage.generate w req).response.files.get name = none
            ↔ ((Storage.children req).filterMap (Storage.merged w req)).filterMap
                (fun r => r.files.get name) = [])
          ∧ ((Storage.generate w req).response.files.get name = some ""
            ↔ ((Storage.children req).filterMap (Storage.merged w req)).filterMap
                (fun r => r.files.get name) = [""]))
      ∧ (∀ (first : String) (rest : List String),
          joined (first :: rest) = some (stringsJoin (first :: rest) "\n\n"))
      ∧ (∀ x : String, joined ["", x] = some ("\n\n" ++ x)) := by
  refine ⟨?_, ?_, ?_, ?_⟩
  · intro name hname
    rw [Gcp.category_files_get_parts w req name hname, Gcp.category_parts_eq]
    exact ⟨rfl, joined_eq_none_iff _, joined_eq_some_empty_iff _⟩
  · intro name hname
    rw [Storage.service_files_get_parts w req name hname, Storage.service_parts_eq]
    exact ⟨rfl, joined_eq_none_iff _, joined_eq_some_empty_iff _⟩
  · intro first rest
    simp [joined]
  · intro x
    simp [joined, stringsJoin]

/-- C5, amended, at a concrete run of the top tier: the storage category answers with
an empty `main.tf` and the compute category with `x`; both parts are collected and
`main.tf` is the empty text, a blank line, `x`. -/
theorem present_key_joins_collected_parts_witness :
    "main.tf" ∈ ["main.tf", "variables.tf", "terraform.tfvars"]
      ∧ ((Gcp.children Sample.emptyThenText
            (Sample.request ["storage", "compute"] [] [])).filterMap
          (Gcp.merged Sample.emptyThenText
            (Sample.request ["storage", "compute"] [] []))).filterMap
          (fun r => r.files.get "main.tf") = ["", "x"]
      ∧ (Gcp.generate Sample.emptyThenText
          (Sample.request ["storage", "compute"] [] [])).response.files.get "main.tf"
        = some "\n\nx" :=
  ⟨by decide, by decide,
    ((present_key_joins_collected_parts Sample.emptyThenText
      (Sample.request ["storage", "compute"] [] [])).1 "main.tf" (by decide)).1.trans
      (by decide)⟩

/-! ## Template variables -/

theorem GoMap.get_eq_none_of_not_mem {α : Type} (m : GoMap α) (k : String)
    (h : k ∉ m.keys) : m.get k = none := by
  induction m with
  | nil => rfl
  | cons e rest ih =>
    obtain ⟨k0, v0⟩ := e
    simp only [GoMap.keys, List.map_cons, List.mem_cons, not_or] at h
    have hne : ¬ k0 = k := fun hk => h.1 hk.symm
    simp only [GoMap.get, hne, if_false]
    exact ih h.2

theorem GoMap.get_foldl_set (ps : GoMap Value) (hkeys : ps.keys.Nodup) (init : GoMap Value)
    (k : String) :
    (ps.foldl (fun vars kv => vars.set kv.1 kv.2) init).get k
      = (ps.get k).orElse fun _ => init.get k := by
  induction ps generalizing init with
  | nil => rfl
  | cons e rest ih =>
    obtain ⟨k0, v0⟩ := e
    simp only [GoMap.keys, List.map_cons, List.nodup_cons] at hkeys
    rw [List.foldl_cons, ih hkeys.2]
    by_cases hk : k0 = k
    · subst hk
      have hnone : GoMap.get rest k0 = none := GoMap.get_eq_none_of_not_mem rest k0 hkeys.1
      simp [GoMap.get, hnone, GoMap.get_set_self]
    · simp [GoMap.get, hk, GoMap.get_set_ne _ _ _ _ hk]

theorem CloudRun.variablesEntry_eq (req : OrchestratorRequest)
    (hkeys : req.parameters.keys.Nodup) (k : String) :
    variablesEntry (CloudRun.templateData req) k
      = (req.parameters.get k).orElse fun _ =>
          if k = "region" then some (Value.str req.context.region) else none := by
  have h := GoMap.get_foldl_set req.parameters hkeys
    [("region", Value.str req.context.region)] k
  simp only [variablesEntry, CloudRun.templateData, GoMap.get, asMap, CloudRun.variablesOf]
  simp only [show ¬ ("ProjectName" = "Variables") by decide,
    show ¬ ("Environment" = "Variables") by decide, if_false, if_true, Option.bind]
  rw [h]
  by_cases hk : k = "region"
  · subst hk
    simp [GoMap.get]
  · simp [GoMap.get, hk, Ne.symm hk]

/-- C6, as stated, fails at the top tier: with the parameter `region` set to `x` the
map `Variables` that `renderTemplate` hands to its template still holds the region of
the context under `region`. -/
theorem top_tier_ignores_parameters :
    asString ((Sample.request [] [] [("region", Value.str "x")]).parameters.get "region")
        = some "x"
      ∧ asString (variablesEntry
          (Gcp.templateData Sample.storageOnly
            (Sample.request [] [] [("region", Value.str "x")])) "region")
        = some "us-central1" := by
  decide

/-- C6, amended.  In the leaf's `generateTfvars` the map `Variables` handed to the
template holds every entry of `parameters` (the keys of a map being distinct), the
region of the context under `region` when `parameters` has no such key, and nothing
else; in the top tier's `renderTemplate` the map `Variables` holds the region of the
context under `region` and nothing else, whatever `parameters` is. -/
theorem variables_map_of_each_tier (w : World) (req : OrchestratorRequest)
    (hkeys : req.parameters.keys.Nodup) :
    (∀ k v, req.parameters.get k = some v →
        variablesEntry (CloudRun.templateData req) k = some v)
      ∧ (req.parameters.get "region" = none →
        variablesEntry (CloudRun.templateData req) "region"
          = some (Value.str req.context.region))
      ∧ (∀ k, k ≠ "region" → req.parameters.get k = none →
        variablesEntry (CloudRun.templateData req) k = none)
      ∧ (∀ k, variablesEntry (Gcp.templateData w req) k
          = if k = "region" then some (Value.str req.context.region) else none) := by
  refine ⟨?_, ?_, ?_, ?_⟩
  · intro k v h
    rw [CloudRun.variablesEntry_eq req hkeys, h]
    rfl
  · intro h
    rw [CloudRun.variablesEntry_eq req hkeys, h]
    rfl
  · intro k hk h
    rw [CloudRun.variablesEntry_eq req hkeys, h]
    simp [hk]
  · intro k
    simp only [variablesEntry, Gcp.templateData, GoMap.get, asMap]
    simp only [show ¬ ("ProjectName" = "Variables") by decide,
      show ¬ ("Environment" = "Variables") by decide,
      show ¬ ("Provider" = "Variables") by decide, if_false, if_true, Option.bind]
    by_cases hk : k = "region"
    · subst hk
      simp [GoMap.get]
    · simp [GoMap.get, hk, Ne.symm hk]

/-- C6, amended, at a concrete request: the leaf hands the parameter `region` to its
template, the top tier hands the region of the context. -/
theorem variables_map_of_each_tier_witness :
    (Sample.request [] [] [("region", Value.str "x")]).parameters.keys.Nodup
      ∧ (Sample.request [] [] [("region", Value.str "x")]).parameters.get "region"
          = some (Value.str "x")
      ∧ variablesEntry (CloudRun.templateData
          (Sample.request [] [] [("region", Value.str "x")])) "region" = some (Value.str "x")
      ∧ variablesEntry (Gcp.templateData Sample.storageOnly
          (Sample.request [] [] [("region", Value.str "x")])) "region"
          = some (Value.str "us-central1") :=
  have hk : (Sample.request [] [] [("region", Value.str "x")]).parameters.keys.Nodup := by
    simp [Sample.request, GoMap.keys]
  ⟨hk, rfl,
    (variables_map_of_each_tier Sample.storageOnly
      (Sample.request [] [] [("region", Value.str "x")]) hk).1 "region" (Value.str "x") rfl,
    (variables_map_of_each_tier Sample.storageOnly
      (Sample.request [] [] [("region", Value.str "x")]) hk).2.2.2 "region"⟩

/-! ## Commands -/

theorem respondError_rejected (command : String) :
    Rejected (respondError ("unknown command: " ++ command) [] []) command := by
  refine ⟨rfl, rfl, ⟨"", ": " ++ command, ?_⟩, rfl, ?_, rfl, rfl⟩
  · show "unknown command: " ++ command = "" ++ "unknown command" ++ (": " ++ command)
    rw [String.append_assoc, String.empty_append, ← String.append_assoc]
    rfl
  · show (1 : Nat) ≠ 0
    decide

/-- C8. When standard input decodes to a request whose command is not `generate`,
each of the three programs answers with `success` false, the error `unknown command: `
followed by the command, and no file, and exits with a non-zero status without
starting any executable or rendering any template. -/
theorem unknown_command_is_rejected (w : World) (stdin : String) (req : OrchestratorRequest)
    (hdecode : w.decodeRequest stdin = .ok req) (hcommand : req.command ≠ "generate") :
    Rejected (Gcp.main w stdin) req.command
      ∧ Rejected (Storage.main w stdin) req.command
      ∧ Rejected (CloudRun.main w stdin) req.command := by
  refine ⟨?_, ?_, ?_⟩
  · simp only [Gcp.main, hdecode, hcommand, if_false]
    exact respondError_rejected req.command
  · simp only [Storage.main, hdecode, hcommand, if_false]
    exact respondError_rejected req.command
  · simp only [CloudRun.main, hdecode, hcommand, if_false]
    exact respondError_rejected req.command

/-- C8, at a concrete run: the command `validate` is rejected by the three programs. -/
theorem unknown_command_is_rejected_witness :
    Sample.commands.decodeRequest "validate"
        = .ok { Sample.request [] [] [] with command := "validate" }
      ∧ ({ Sample.request [] [] [] with command := "validate" } : OrchestratorRequest).command
          ≠ "generate"
      ∧ Rejected (Gcp.main Sample.commands "validate") "validate"
      ∧ Rejected (Storage.main Sample.commands "validate") "validate"
      ∧ Rejected (CloudRun.main Sample.commands "validate") "validate" :=
  ⟨rfl, by decide,
    unknown_command_is_rejected Sample.commands "validate"
      { Sample.request [] [] [] with command := "validate" } rfl (by decide)⟩

/-! ## The project identifier -/

theorem Gcp.projectID_eq (w : World) (credentials : GoMap Value) :
    Gcp.projectID w credentials
      = if (Gcp.fromServiceAccount w credentials).getD "" = "" then
          (Gcp.fromNested credentials).getD ""
        else (Gcp.fromServiceAccount w credentials).getD "" := by
  have hnested : ∀ fallback : String,
      (match asMap (credentials.get "gcp") with
        | some creds =>
          match asString (creds.get "project_id") with
          | some pid => pid
          | none => fallback
        | none => fallback)
        = (Gcp.fromNested credentials).getD fallback := by
    intro fallback
    unfold Gcp.fromNested
    rcases h1 : asMap (credentials.get "gcp") with _ | creds
    · rfl
    · rcases h2 : asString (creds.get "project_id") with _ | pid <;> simp [h2]
  have hdoc :
      (match asString (credentials.get "gcp_service_account_json") with
        | some saJSON =>
          match w.unmarshalObject saJSON with
          | .ok saData =>
            match asString (saData.get "project_id") with
            | some pid => pid
            | none => ""
          | .error _ => ""
        | none => "")
        = (Gcp.fromServiceAccount w credentials).getD "" := by
    unfold Gcp.fromServiceAccount
    rcases h1 : asString (credentials.get "gcp_service_account_json") with _ | saJSON
    · rfl
    · rcases h2 : w.unmarshalObject saJSON with err | saData
      · simp [h2]
      · rcases h3 : asString (saData.get "project_id") with _ | pid <;> simp [h2, h3]
  unfold Gcp.projectID
  simp only [hdoc, hnested]
  by_cases h : (Gcp.fromServiceAccount w credentials).getD "" = ""
  · simp [h]
  · simp [h]

/-- C9, as stated, fails: the service-account document parses and holds the string
`project_id` with empty text, the nested map holds `p`, and `renderTemplate` puts `p`
under `Metadata`, `project_id`, not the value of the document. -/
theorem empty_document_identifier_falls_through :
    Gcp.fromServiceAccount Sample.documents Sample.emptyThenNested = some ""
      ∧ Gcp.fromNested Sample.emptyThenNested = some "p"
      ∧ Gcp.projectID Sample.documents Sample.emptyThenNested = "p"
      ∧ metadataProjectID
          (Gcp.templateData Sample.documents (Sample.request [] Sample.emptyThenNested []))
        = some "p" := by
  decide

/-- C9, amended.  The project identifier that `renderTemplate` puts under `Metadata`,
`project_id` is always defined and is decided in this order: the string `project_id`
of the JSON object that the string under `gcp_service_account_json` parses to, when
there is one and it is not empty; otherwise the string `project_id` of the map under
`gcp`, when there is one; otherwise the empty string.  A non-empty identifier of the
document wins over one of the nested map. -/
theorem project_identifier_order (w : World) (req : OrchestratorRequest) :
    metadataProjectID (Gcp.templateData w req) = some (Gcp.projectID w req.credentials)
      ∧ (∀ p, Gcp.fromServiceAccount w req.credentials = some p → p ≠ "" →
          Gcp.projectID w req.credentials = p)
      ∧ ((Gcp.fromServiceAccount w req.credentials = none
            ∨ Gcp.fromServiceAccount w req.credentials = some "") →
          (∀ p, Gcp.fromNested req.credentials = some p →
              Gcp.projectID w req.credentials = p)
            ∧ (Gcp.fromNested req.credentials = none →
              Gcp.projectID w req.credentials = "")) := by
  refine ⟨?_, ?_, ?_⟩
  · simp only [metadataProjectID, Gcp.templateData, GoMap.get, asMap, asString]
    simp only [show ¬ ("ProjectName" = "Metadata") by decide,
      show ¬ ("Environment" = "Metadata") by decide,
      show ¬ ("Provider" = "Metadata") by decide,
      show ¬ ("Variables" = "Metadata") by decide, if_false, if_true, Option.bind]
    rfl
  · intro p hp hne
    rw [Gcp.projectID_eq, hp]
    simp [hne]
  · intro h
    have hempty : (Gcp.fromServiceAccount w req.credentials).getD "" = "" := by
      rcases h with h | h <;> simp [h]
    refine ⟨?_, ?_⟩
    · intro p hp
      rw [Gcp.projectID_eq, hempty, hp]
      simp
    · intro hn
      rw [Gcp.projectID_eq, hempty, hn]
      simp

/-- C9, amended, at concrete credentials: the document names `alpha`, the nested map
names `p`, and the identifier is `alpha`. -/
theorem project_identifier_order_witness :
    Gcp.fromServiceAccount Sample.documents
        (Sample.request [] Sample.alphaThenNested []).credentials = some "alpha"
      ∧ "alpha" ≠ ""
      ∧ Gcp.fromNested (Sample.request [] Sample.alphaThenNested []).credentials = some "p"
      ∧ Gcp.projectID Sample.documents
          (Sample.request [] Sample.alphaThenNested []).credentials = "alpha" :=
  ⟨by decide, by decide, by decide,
    (project_identifier_order Sample.documents
      (Sample.request [] Sample.alphaThenNested [])).2.1 "alpha" (by decide) (by decide)⟩

/-! ## The sanitizing helpers -/

theorem replaceScan_single (o n : Char) (l : List Char) :
    replaceScan [o] [n] 0 l = l.map fun c => if c = o then n else c := by
  induction l with
  | nil => rfl
  | cons c cs ih =>
    by_cases h : c = o
    · subst h
      simp [replaceScan, List.isPrefixOf, ih]
    · have h2 : ¬ o = c := fun e => h e.symm
      simp [replaceScan, List.isPrefixOf, ih, h, h2]

theorem stringsReplaceAll_single (s : String) (o n : Char) :
    stringsReplaceAll s (String.mk [o]) (String.mk [n])
      = String.mk (s.data.map fun c => if c = o then n else c) := by
  simp [stringsReplaceAll, replaceScan_single]

theorem hyphenate_eq (c : Char) :
    (if (if c = ' ' then '-' else c) = '_' then '-' else (if c = ' ' then '-' else c))
      = hyphenate c := by
  unfold hyphenate
  by_cases h1 : c = ' '
  · subst h1
    decide
  · by_cases h2 : c = '_'
    · subst h2
      decide
    · simp [h1, h2]

theorem hyphenate_ne_space (c : Char) : hyphenate c ≠ ' ' := by
  unfold hyphenate
  by_cases h : c = ' ' ∨ c = '_'
  · rw [if_pos h]
    decide
  · rw [if_neg h]
    exact fun e => h (Or.inl e)

theorem hyphenate_ne_underscore (c : Char) : hyphenate c ≠ '_' := by
  unfold hyphenate
  by_cases h : c = ' ' ∨ c = '_'
  · rw [if_pos h]
    decide
  · rw [if_neg h]
    exact fun e => h (Or.inr e)

theorem sanitize_steps (lower : Char → Char) (s : String) :
    stringsReplaceAll (stringsReplaceAll (stringsToLower lower s) " " "-") "_" "-"
      = sanitizeSpec lower s := by
  have h1 := stringsReplaceAll_single (stringsToLower lower s) ' ' '-'
  have h2 := stringsReplaceAll_single
    (String.mk ((stringsToLower lower s).data.map fun c => if c = ' ' then '-' else c)) '_' '-'
  have e1 : String.mk [' '] = " " := rfl
  have e2 : String.mk ['-'] = "-" := rfl
  have e3 : String.mk ['_'] = "_" := rfl
  rw [e1, e2] at h1
  rw [e3, e2] at h2
  rw [h1, h2]
  simp only [sanitizeSpec, stringsToLower, List.map_map]
  congr 1
  apply List.map_congr_left
  intro c _
  exact hyphenate_eq (lower c)

/-- C10. The helpers `sanitize` and `sanitizeLabel` of the top tier and the helper
`sanitize` of the leaf, each registered under its name in the function map of its
program, are one function: for every string they return the string lowercased with
every space and every underscore replaced by a hyphen and every other character
kept, so that the result holds neither a space nor an underscore. -/
theorem sanitize_helpers_agree (w : World) (s : String) :
    Gcp.sanitize w s = sanitizeSpec w.lower s
      ∧ Gcp.sanitizeLabel w s = Gcp.sanitize w s
      ∧ CloudRun.sanitize w s = Gcp.sanitize w s
      ∧ ' ' ∉ (Gcp.sanitize w s).data
      ∧ '_' ∉ (Gcp.sanitize w s).data
      ∧ (Gcp.funcMap w).get "sanitize" = some (Helper.text (Gcp.sanitize w))
      ∧ (Gcp.funcMap w).get "sanitizeLabel" = some (Helper.text (Gcp.sanitizeLabel w))
      ∧ (CloudRun.funcMap w).get "sanitize" = some (Helper.text (CloudRun.sanitize w)) := by
  have h : Gcp.sanitize w s = sanitizeSpec w.lower s := sanitize_steps w.lower s
  refine ⟨h, rfl, rfl, ?_, ?_, ?_, ?_, ?_⟩
  · rw [h]
    simp only [sanitizeSpec, List.mem_map, not_exists, not_and]
    intro c _
    exact hyphenate_ne_space c
  · rw [h]
    simp only [sanitizeSpec, List.mem_map, not_exists, not_and]
    intro c _
    exact hyphenate_ne_underscore c
  · simp [Gcp.funcMap, GoMap.get]
  · simp [Gcp.funcMap, GoMap.get]
  · simp [CloudRun.funcMap, GoMap.get]

theorem sanitize_sample :
    Gcp.sanitize Sample.storageOnly "My Bucket_Name" = "my-bucket-name" := by
  decide

/-! ## Each category is visited once at the top tier -/

theorem GoMap.keys_set {α : Type} (m : GoMap α) (k : String) (v : α) :
    (m.set k v).keys = if k ∈ m.keys then m.keys else m.keys ++ [k] := by
  induction m with
  | nil => simp [GoMap.set, GoMap.keys]
  | cons e rest ih =>
    obtain ⟨k0, v0⟩ := e
    by_cases h : k0 = k
    · subst h
      simp [GoMap.set, GoMap.keys]
    · have h2 : ¬ k = k0 := fun e => h e.symm
      simp only [GoMap.keys] at ih
      by_cases hmem : k ∈ List.map Prod.fst rest
      · simp [GoMap.set, GoMap.keys, h, h2, ih, hmem]
      · simp [GoMap.set, GoMap.keys, h, h2, ih, hmem]

theorem GoMap.nodup_keys_set {α : Type} (m : GoMap α) (k : String) (v : α)
    (h : m.keys.Nodup) : (m.set k v).keys.Nodup := by
  rw [GoMap.keys_set]
  by_cases hmem : k ∈ m.keys
  · simpa [hmem] using h
  · simp only [hmem, if_false]
    rw [List.nodup_append]
    refine ⟨h, List.nodup_singleton k, ?_⟩
    intro a ha hb
    rw [List.mem_singleton] at hb
    exact hmem (hb ▸ ha)

theorem Gcp.categoryMapOf_fold_nodup (caps : List String) (acc : GoMap (List String))
    (h : acc.keys.Nodup) :
    (caps.foldl
        (fun categoryMap cap =>
          let category := Gcp.mapCapabilityToCategory cap
          if category ≠ "" then
            categoryMap.set category ((categoryMap.get category).getD [] ++ [cap])
          else categoryMap)
        acc).keys.Nodup := by
  induction caps generalizing acc with
  | nil => exact h
  | cons c cs ih =>
    rw [List.foldl_cons]
    apply ih
    by_cases hc : Gcp.mapCapabilityToCategory c = ""
    · simpa [hc] using h
    · simp only [ne_eq, hc, not_false_eq_true, if_true]
      exact GoMap.nodup_keys_set _ _ _ h

/-- At the top tier, when a `range` walks every key of the map once, no category is
visited twice, and the executables started are those of the visited categories, at
most one each, in visiting order. -/
theorem top_tier_visits_each_category_once (w : World) (req : OrchestratorRequest)
    (hrange : ∀ ks, (w.rangeOrder ks).Perm ks) :
    (Gcp.children w req).Nodup
      ∧ (Gcp.generate w req).spawned = (Gcp.children w req).flatMap (Gcp.started w req)
      ∧ (∀ c, Gcp.started w req c = [] ∨ Gcp.started w req c = [Gcp.categoryPath w c]) := by
  refine ⟨?_, ?_, ?_⟩
  · have hn : (Gcp.categoryMapOf req.capabilities).keys.Nodup :=
      Gcp.categoryMapOf_fold_nodup req.capabilities [] List.nodup_nil
    exact (hrange _).nodup_iff.mpr hn
  · simp [Gcp.generate, Gcp.category_finish_eq, (GenState.combine_rest _).2.2.2]
  · intro c
    unfold Gcp.started Gcp.callCategoryOrchestrator
    by_cases hne : w.notExist (Gcp.categoryPath w c) = true
    · simp [hne]
    · rcases h1 : w.marshalRequest req with err | inputJSON
      · simp [hne]
      · rcases h2 : (w.combinedOutput (Gcp.categoryPath w c) inputJSON).err with _ | err
        · rcases h3 : w.unmarshalResponse
            (w.combinedOutput (Gcp.categoryPath w c) inputJSON).output with err | resp
          · simp [hne, h2, h3]
          · simp [hne, h2, h3]
        · simp [hne, h2]

/-- At the storage tier the loop visits `cloud-storage` once for every occurrence of
`storage` among the capabilities. -/
theorem storage_tier_visits_per_occurrence (req : OrchestratorRequest) :
    Storage.children req
      = List.replicate (req.capabilities.count "storage") "cloud-storage" := by
  rw [Storage.children, Storage.servicesOf_eq]
  induction req.capabilities with
  | nil => rfl
  | cons c cs ih =>
    by_cases h : c = "storage"
    · subst h
      simp [List.replicate_succ, ih]
    · have h2 : ¬ ("storage" = c) := fun e => h e.symm
      have h3 : (c == "storage") = false := by simpa using h
      simp [h, List.count_cons, h3, ih]

/-- A run of the top tier with both categories present: the values fragments `A` and
`B` are joined in visiting order, and the services of the first category come first. -/
theorem two_categories_sample :
    (Gcp.generate Sample.bothCategories
        (Sample.request ["storage", "compute"] [] [])).response.files.get "terraform.tfvars"
      = some "A\n\nB"
      ∧ (Gcp.generate Sample.bothCategories
          (Sample.request ["storage", "compute"] [] [])).response.files.get "main.tf"
        = some "bucket\n\nservice"
      ∧ (Gcp.generate Sample.bothCategories
          (Sample.request ["storage", "compute"] [] [])).response.metadata.servicesIncluded
        = ["cloud-storage", "cloud-run"] := by
  decide
